import Mathlib

/-! Banco: ledger core of `solid/RefactoredClasses.cpp`.

Shallow embedding of the refactored bank (`Conta`, `ClientesMem`, `ContasMem`,
`MoedaBRL`, `BancoService`) and proofs of its ledger properties, with the original
`Banco` of `original/OriginalClasses.cpp` embedded next to it for comparison.

Modelling conventions.

* A `long long` is an integer of the range `-2^63 ≤ x < 2^63` (`LongLong.cabe`). The one
  operation of the ledger that can leave the range is the credit `centavos_ += centavos`
  of `Conta::depositar`. Signed overflow is undefined behaviour in C++; the embedding gives
  it the value the compiled code produces, the sum reduced modulo `2^64` into the range
  (`LongLong.envolver`). The debit `centavos_ -= centavos` runs only when
  `0 < centavos ≤ centavos_` and cannot leave the range. The `int` sequence counters are
  `Nat`.
* A `double` is the rational number it stands for. A value handed to a method that takes a
  `double` is first rounded to the nearest IEEE-754 binary64 number, halfway cases to the
  even significand (`Double.deRacional`), and `valor * 100.0` is the exact product rounded
  the same way (`Double.vezes`). Subnormal numbers are rounded on their fixed grid; a
  magnitude beyond the largest finite `double` stays a rational where the machine has an
  infinity, which `llround` treats alike, as out of range. NaN is not represented.
* `llround` rounds to the nearest integer, halfway cases away from zero. When that integer
  does not fit `long long` the C library leaves the result unspecified; the embedding
  returns `LLONG_MIN`, as x86-64 does.
* An `unordered_map<string, V>` is an association list searched from the front;
  `m[k] = v` replaces the value stored under `k` or appends a new slot.
* A C++ exception does not undo earlier writes. Every mutating method therefore returns
  its outcome together with the state it leaves behind, also when it throws.
* An `IConta*` obtained from the directory is the account stored under that key; a call
  through the pointer is the method applied to that account, written back to its slot.
* The clock is an arbitrary sequence of readings; each `now()` consumes one reading. The
  accounts and the service read the same clock, as `main` wires them.
* Evaluation order is that of C++17: in `p->f(args)` the object expression `p` is
  evaluated before `args`, and in `a = b` the right operand `b` is evaluated before the
  left operand `a`.
* A `std::string` that has been moved from is empty, as in libstdc++ (the library behind
  `<bits/stdc++.h>`).
* `ContasMem::add` ends with `map_.at(map_.rbegin()->first)`, and `unordered_map` declares
  no `rbegin`: the line is ill-formed. A map with a single slot has the same first and
  last element under every iteration order, so there the expression is read as that slot;
  for a map with several slots the embedding designates no account (`Mapa.rbeginKey`).
-/

namespace Banco

/-- The three exception kinds: `ValorInvalido`, `SaldoInsuficiente`, `EntidadeNaoEncontrada`. -/
inductive Erro where
  | ValorInvalido
  | SaldoInsuficiente
  | EntidadeNaoEncontrada
  deriving DecidableEq, Repr

/-- Outcome of a call: a returned value or the kind of exception thrown. -/
inductive Resultado (α : Type) where
  | ok (valor : α)
  | erro (e : Erro)
  deriving DecidableEq, Repr

/-- Record `struct Cliente`. -/
structure Cliente where
  id : Nat
  nome : String
  cpf : String
  deriving DecidableEq, Repr

/-- A `chrono::system_clock::time_point`, as a tick count. -/
abbrev Tempo := Int

/-- Record `struct Transacao`. -/
structure Transacao where
  momento : Tempo
  tipo : String
  centavos : Int
  descricao : String
  origem : String
  destino : String
  deriving DecidableEq, Repr

/-- An `IClock`: the readings it will return, and how many have been taken. -/
structure Relogio where
  leituras : Nat → Tempo
  chamadas : Nat

/-- Method `IClock::now`: the next reading. -/
def Relogio.now (r : Relogio) : Tempo × Relogio :=
  (r.leituras r.chamadas, { r with chamadas := r.chamadas + 1 })

/-! ## `unordered_map<string, V>` -/

/-- Lookup `map_.find(k)`: the value stored under `k`, if any. -/
def Mapa.find {V : Type} : List (String × V) → String → Option V
  | [], _ => none
  | (k', v) :: resto, k => if k' = k then some v else Mapa.find resto k

/-- Assignment `map_[k] = v`: overwrite the slot of `k`, or create it. -/
def Mapa.set {V : Type} : List (String × V) → String → V → List (String × V)
  | [], k, v => [(k, v)]
  | (k', v') :: resto, k, v =>
    if k' = k then (k, v) :: resto else (k', v') :: Mapa.set resto k v

/-- Key of `map_.rbegin()`. An `unordered_map` declares no `rbegin`. In a map with a
single slot that slot is the last one in whatever order the slots are visited, and its key
is the value given here; in any other map no key is designated. -/
def Mapa.rbeginKey {V : Type} : List (String × V) → Option String
  | [kv] => some kv.1
  | _ => none

/-! ## `long long` -/

/-- The values a `long long` can hold. -/
@[reducible] def LongLong.cabe (x : Int) : Prop :=
  -9223372036854775808 ≤ x ∧ x < 9223372036854775808

/-- The `long long` congruent to `x` modulo `2^64`: what a 64-bit two's complement
register holds after computing `x`. -/
def LongLong.envolver (x : Int) : Int :=
  (x + 9223372036854775808) % 18446744073709551616 - 9223372036854775808

/-! ## `class Conta` -/

/-- The fields of `class Conta` (the clock reference is passed to the methods). -/
structure Conta where
  numero_ : String
  cliente_ : Cliente
  centavos_ : Int
  historico_ : List Transacao
  deriving DecidableEq, Repr

/-- Constructor `Conta(numero, cliente, clock)`: zero balance, empty history. -/
def Conta.nova (numero : String) (cliente : Cliente) : Conta :=
  { numero_ := numero, cliente_ := cliente, centavos_ := 0, historico_ := [] }

/-- Method `Conta::depositar`. The sum `centavos_ += centavos` is kept in 64 bits. -/
def Conta.depositar (self : Conta) (clock_ : Relogio) (centavos : Int) (descricao : String) :
    Resultado Unit × Conta × Relogio :=
  if centavos ≤ 0 then (.erro .ValorInvalido, self, clock_)
  else
    let self1 := { self with centavos_ := LongLong.envolver (self.centavos_ + centavos) }
    let agora := clock_.now
    (.ok (),
     { self1 with historico_ := self1.historico_ ++
        [{ momento := agora.1, tipo := "DEPOSITO", centavos := centavos,
           descricao := descricao, origem := "", destino := self1.numero_ }] },
     agora.2)

/-- Method `Conta::sacar`. The difference is computed only when
`0 < centavos ≤ centavos_`, where it lies between 0 and `centavos_`. -/
def Conta.sacar (self : Conta) (clock_ : Relogio) (centavos : Int) (descricao : String) :
    Resultado Unit × Conta × Relogio :=
  if centavos ≤ 0 then (.erro .ValorInvalido, self, clock_)
  else if self.centavos_ < centavos then (.erro .SaldoInsuficiente, self, clock_)
  else
    let self1 := { self with centavos_ := self.centavos_ - centavos }
    let agora := clock_.now
    (.ok (),
     { self1 with historico_ := self1.historico_ ++
        [{ momento := agora.1, tipo := "SAQUE", centavos := centavos,
           descricao := descricao, origem := self1.numero_, destino := "" }] },
     agora.2)

/-- Method `Conta::registrar`: append a ready-made record, balance untouched. -/
def Conta.registrar (self : Conta) (t : Transacao) : Conta :=
  { self with historico_ := self.historico_ ++ [t] }

/-! ## `class ClientesMem` -/

/-- The fields of `class ClientesMem`. -/
structure ClientesMem where
  map_ : List (String × Cliente)
  seq_ : Nat
  deriving DecidableEq, Repr

/-- Method `ClientesMem::getByCpf` (`none` is `nullptr`). -/
def ClientesMem.getByCpf (self : ClientesMem) (cpf : String) : Option Cliente :=
  Mapa.find self.map_ cpf

/-- Method `ClientesMem::add`. -/
def ClientesMem.add (self : ClientesMem) (nome cpf : String) : Cliente × ClientesMem :=
  match Mapa.find self.map_ cpf with
  | some c => (c, self)
  | none =>
    let c : Cliente := { id := self.seq_, nome := nome, cpf := cpf }
    (c, { map_ := Mapa.set self.map_ cpf c, seq_ := self.seq_ + 1 })

/-! ## `class ContasMem` -/

/-- The fields of `class ContasMem`. -/
structure ContasMem where
  map_ : List (String × Conta)
  seq_ : Nat
  deriving DecidableEq, Repr

/-- Method `ContasMem::nextNumero`: `to_string(seq_++)`. -/
def ContasMem.nextNumero (self : ContasMem) : String × ContasMem :=
  (toString self.seq_, { self with seq_ := self.seq_ + 1 })

/-- Content of a `std::string` variable after `std::move` handed its buffer to another
string: empty. -/
def movido (_antes : String) : String := ""

/-- Method `ContasMem::add`, that is
`map_[numero] = make_unique<Conta>(move(numero), move(cli), clock_)`. The right operand
runs first: it builds the account, whose constructor takes `numero` by value and so moves
the text out of the parameter. Only then is `map_[numero]` evaluated, with what is left
in `numero`. The method returns the account found under the key of `rbegin()`; `none`
stands for a pointer the embedding does not determine, in a directory of several slots. -/
def ContasMem.add (self : ContasMem) (numero : String) (cli : Cliente) :
    Option Conta × ContasMem :=
  let conta := Conta.nova numero cli
  let m := Mapa.set self.map_ (movido numero) conta
  ((Mapa.rbeginKey m).bind (Mapa.find m), { self with map_ := m })

/-- Method `ContasMem::find` (`none` is `nullptr`). -/
def ContasMem.find (self : ContasMem) (numero : String) : Option Conta :=
  Mapa.find self.map_ numero

/-- Write through an `IConta*`: the slot under `numero` now holds `conta`. -/
def ContasMem.gravar (self : ContasMem) (numero : String) (conta : Conta) : ContasMem :=
  { self with map_ := Mapa.set self.map_ numero conta }

/-! ## `double` -/

/-- Halvings needed to bring `n` below 2, at most `passos` of them. -/
def Double.log2Aux : Nat → Nat → Nat
  | 0, _ => 0
  | passos + 1, n => if n < 2 then 0 else Double.log2Aux passos (n / 2) + 1

/-- Position of the leading binary digit of `n`: the `k` with `2^k ≤ n < 2^(k+1)`. -/
def Double.log2 (n : Nat) : Nat := Double.log2Aux n n

/-- Nearest integer, halfway cases to the even one: how a significand is rounded. -/
def Double.inteiroPar (q : ℚ) : Int :=
  let f := ⌊q⌋
  if q - f < 1 / 2 then f
  else if 1 / 2 < q - f then f + 1
  else if f % 2 = 0 then f else f + 1

/-- Binary exponent of a nonzero `q`: the `e` with `2^e ≤ |q| < 2^(e+1)`. -/
def Double.expoente (q : ℚ) : Int :=
  let e : Int := (Double.log2 q.num.natAbs : Int) - (Double.log2 q.den : Int)
  if (2 : ℚ) ^ e ≤ |q| then e else e - 1

/-- The binary64 number nearest to `q`: 53 significant binary digits, halfway cases to the
even significand; below `2^(-1022)` the spacing stays `2^(-1074)`. -/
def Double.deRacional (q : ℚ) : ℚ :=
  if q = 0 then 0
  else
    let ulp : ℚ := (2 : ℚ) ^ (max (Double.expoente q) (-1022) - 52)
    (Double.inteiroPar (q / ulp) : ℚ) * ulp

/-- Product `a * b` of two `double`s: the exact product, rounded. -/
def Double.vezes (a b : ℚ) : ℚ := Double.deRacional (a * b)

/-! ## `class MoedaBRL` -/

/-- Nearest integer, halfway cases away from zero. -/
def inteiroProximo (x : ℚ) : Int :=
  if 0 ≤ x then ⌊x + 1 / 2⌋ else -⌊-x + 1 / 2⌋

/-- Function `llround`: the nearest integer, halfway cases away from zero, when it fits
`long long`, and `LLONG_MIN` when it does not. -/
def llround (x : ℚ) : Int :=
  let r := inteiroProximo x
  if LongLong.cabe r then r else -9223372036854775808

/-- Method `MoedaBRL::paraCentavos`: `llround(valor * 100.0)` on the `double` `valor`. -/
def MoedaBRL.paraCentavos (valor : ℚ) : Resultado Int :=
  let c := llround (Double.vezes (Double.deRacional valor) 100)
  if c = 0 then .erro .ValorInvalido else .ok c

/-! ## `class BancoService` -/

/-- The collaborators a `BancoService` is wired with (`MoedaBRL` has no state). -/
structure BancoService where
  clientes_ : ClientesMem
  contas_ : ContasMem
  clock_ : Relogio

namespace BancoService

/-- Method `BancoService::criar_cliente`. -/
def criar_cliente (s : BancoService) (nome cpf : String) : Cliente × BancoService :=
  match s.clientes_.getByCpf cpf with
  | some c => (c, s)
  | none =>
    let r := s.clientes_.add nome cpf
    (r.1, { s with clientes_ := r.2 })

/-- Method `BancoService::abrir_conta`. -/
def abrir_conta (s : BancoService) (cpf : String) : Resultado (Option Conta) × BancoService :=
  match s.clientes_.getByCpf cpf with
  | none => (.erro .EntidadeNaoEncontrada, s)
  | some c =>
    let n := s.contas_.nextNumero
    let r := n.2.add n.1 c
    (.ok r.1, { s with contas_ := r.2 })

/-- Method `BancoService::buscar_conta`. -/
def buscar_conta (s : BancoService) (numero : String) : Resultado Conta :=
  match s.contas_.find numero with
  | none => .erro .EntidadeNaoEncontrada
  | some c => .ok c

/-- Method `BancoService::depositar`. -/
def depositar (s : BancoService) (numero : String) (valor : ℚ) :
    Resultado Unit × BancoService :=
  match s.buscar_conta numero with
  | .erro e => (.erro e, s)
  | .ok conta =>
    match MoedaBRL.paraCentavos valor with
    | .erro e => (.erro e, s)
    | .ok c =>
      let r := conta.depositar s.clock_ c "depósito"
      (r.1, { s with contas_ := s.contas_.gravar numero r.2.1, clock_ := r.2.2 })

/-- Method `BancoService::sacar`. -/
def sacar (s : BancoService) (numero : String) (valor : ℚ) :
    Resultado Unit × BancoService :=
  match s.buscar_conta numero with
  | .erro e => (.erro e, s)
  | .ok conta =>
    match MoedaBRL.paraCentavos valor with
    | .erro e => (.erro e, s)
    | .ok c =>
      let r := conta.sacar s.clock_ c "saque"
      (r.1, { s with contas_ := s.contas_.gravar numero r.2.1, clock_ := r.2.2 })

/-- Method `BancoService::transferir`. The two pointers are taken before the debit;
they name different slots because the keys differ. -/
def transferir (s : BancoService) (origem destino : String) (valor : ℚ) :
    Resultado Unit × BancoService :=
  if origem = destino then (.erro .ValorInvalido, s)
  else
    match MoedaBRL.paraCentavos valor with
    | .erro e => (.erro e, s)
    | .ok c =>
      match s.buscar_conta origem with
      | .erro e => (.erro e, s)
      | .ok co =>
        match s.buscar_conta destino with
        | .erro e => (.erro e, s)
        | .ok cd =>
          let r1 := co.sacar s.clock_ c ("transferência para " ++ destino)
          let s1 := { s with contas_ := s.contas_.gravar origem r1.2.1, clock_ := r1.2.2 }
          match r1.1 with
          | .erro e => (.erro e, s1)
          | .ok _ =>
            let r2 := cd.depositar s1.clock_ c ("transferência de " ++ origem)
            let s2 := { s1 with contas_ := s1.contas_.gravar destino r2.2.1, clock_ := r2.2.2 }
            match r2.1 with
            | .erro e => (.erro e, s2)
            | .ok _ =>
              let agora := s2.clock_.now
              let t : Transacao :=
                { momento := agora.1, tipo := "TRANSFERENCIA", centavos := c,
                  descricao := "transferência", origem := origem, destino := destino }
              let s3 := { s2 with contas_ := s2.contas_.gravar origem (r1.2.1.registrar t),
                                  clock_ := agora.2 }
              (.ok (), { s3 with contas_ := s3.contas_.gravar destino (r2.2.1.registrar t) })

/-- Method `BancoService::extrato`: a copy of the account's history. -/
def extrato (s : BancoService) (numero : String) : Resultado (List Transacao) :=
  match s.buscar_conta numero with
  | .erro e => .erro e
  | .ok conta => .ok conta.historico_

/-- One call of the service's public interface, with its arguments. -/
inductive Chamada where
  | criar_cliente (nome cpf : String)
  | abrir_conta (cpf : String)
  | depositar (numero : String) (valor : ℚ)
  | sacar (numero : String) (valor : ℚ)
  | transferir (origem destino : String) (valor : ℚ)
  | extrato (numero : String)

/-- The state a call leaves behind, whether it returns or throws. -/
def aplicar (s : BancoService) : Chamada → BancoService
  | .criar_cliente nome cpf => (s.criar_cliente nome cpf).2
  | .abrir_conta cpf => (s.abrir_conta cpf).2
  | .depositar numero valor => (s.depositar numero valor).2
  | .sacar numero valor => (s.sacar numero valor).2
  | .transferir origem destino valor => (s.transferir origem destino valor).2
  | .extrato _ => s

/-- The state after a finite sequence of calls. -/
def executar (s : BancoService) (chamadas : List Chamada) : BancoService :=
  chamadas.foldl aplicar s

/-- The empty ledger as `main` wires it: no customers (`seq_ = 1`), no accounts
(`seq_ = 1001`), and some clock. -/
def vazio (clock : Relogio) : BancoService :=
  { clientes_ := { map_ := [], seq_ := 1 }, contas_ := { map_ := [], seq_ := 1001 },
    clock_ := clock }

end BancoService

/-- Representation invariant of the customer directory: keys are distinct and every
customer is stored under its own `cpf`. -/
def ClientesMem.BemFormado (self : ClientesMem) : Prop :=
  (self.map_.map Prod.fst).Nodup ∧ ∀ kv ∈ self.map_, kv.2.cpf = kv.1

/-- The directory has at most one slot, and its key is the empty one. -/
def ContasMem.UmSlot (r : ContasMem) : Prop :=
  r.map_ = [] ∨ ∃ c, r.map_ = [("", c)]

/-- Frame of a money movement from `s` to `s'` that may touch only the accounts filed
under `tocadas`: same customers and customer counter, same account counter, same account
keys in the same slots, every other account untouched, and every account keeps its number
and owner. -/
def BancoService.Moldura (s s' : BancoService) (tocadas : List String) : Prop :=
  s'.clientes_ = s.clientes_ ∧
  s'.contas_.seq_ = s.contas_.seq_ ∧
  s'.contas_.map_.map Prod.fst = s.contas_.map_.map Prod.fst ∧
  (∀ k, k ∉ tocadas → s'.contas_.find k = s.contas_.find k) ∧
  (∀ k c, s.contas_.find k = some c →
    ∃ c', s'.contas_.find k = some c' ∧ c'.numero_ = c.numero_ ∧ c'.cliente_ = c.cliente_)

/-- Sum of the amounts of the entries of kind `tipo` in a history. -/
def Conta.somaTipo (tipo : String) (historico : List Transacao) : Int :=
  ((historico.filter (fun t => t.tipo = tipo)).map (fun t => t.centavos)).sum

/-- The balance is the 64-bit value of the `DEPOSITO` amounts of the history minus its
`SAQUE` amounts. -/
@[reducible] def Conta.SaldoExplicado (c : Conta) : Prop :=
  c.centavos_ = LongLong.envolver
    (Conta.somaTipo "DEPOSITO" c.historico_ - Conta.somaTipo "SAQUE" c.historico_)

/-- Whether crediting the conversion of `valor` to the account under `numero` stays within
`long long`; vacuously so when there is no such account or no converted amount. -/
def BancoService.creditoCabe (s : BancoService) (numero : String) (valor : ℚ) : Bool :=
  match s.contas_.find numero, MoedaBRL.paraCentavos valor with
  | some conta, .ok c => decide (LongLong.cabe (conta.centavos_ + c))
  | _, _ => true

/-- Whether the credit a call makes stays within `long long`: the credit of `depositar`,
and the credit of `transferir` to the destination; the other calls credit nothing. -/
def BancoService.semEstouro (s : BancoService) : BancoService.Chamada → Bool
  | .depositar numero valor => s.creditoCabe numero valor
  | .transferir _ destino valor => s.creditoCabe destino valor
  | _ => true

/-- Whether no credit overflows along a sequence of calls started in `s`. -/
def BancoService.semEstouroTodas : BancoService → List BancoService.Chamada → Bool
  | _, [] => true
  | s, ch :: resto => s.semEstouro ch && BancoService.semEstouroTodas (s.aplicar ch) resto

/-! ## `criar_dados_mock` of the refactored service -/

/-- How a run of `criar_dados_mock` ends: it returns, one of the ledger's exceptions
escapes, or it goes on with an account pointer that `ContasMem::add` does not determine. -/
inductive Desfecho where
  | concluido
  | excecao (e : Erro)
  | indeterminado
  deriving DecidableEq, Repr

/-- Method `BancoService::criar_dados_mock`: the demonstration sequence. The first
exception ends the run. -/
def BancoService.criar_dados_mock (svc : BancoService) : Desfecho × BancoService :=
  let a := svc.criar_cliente "Ana" "11111111111"
  match a.2.abrir_conta a.1.cpf with
  | (.erro e, s) => (.excecao e, s)
  | (.ok none, s) => (.indeterminado, s)
  | (.ok (some p1), s1) =>
    let c1 := p1.numero_
    let br := s1.criar_cliente "Bruno" "22222222222"
    match br.2.abrir_conta br.1.cpf with
    | (.erro e, s) => (.excecao e, s)
    | (.ok none, s) => (.indeterminado, s)
    | (.ok (some p2), s2) =>
      let c2 := p2.numero_
      let ca := s2.criar_cliente "Carla" "33333333333"
      match ca.2.abrir_conta ca.1.cpf with
      | (.erro e, s) => (.excecao e, s)
      | (.ok none, s) => (.indeterminado, s)
      | (.ok (some p3), s3) =>
        let c3 := p3.numero_
        match s3.depositar c1 1500 with
        | (.erro e, s) => (.excecao e, s)
        | (.ok _, s4) =>
          match s4.depositar c2 800 with
          | (.erro e, s) => (.excecao e, s)
          | (.ok _, s5) =>
            match s5.depositar c3 2500 with
            | (.erro e, s) => (.excecao e, s)
            | (.ok _, s6) =>
              match s6.transferir c3 c1 300 with
              | (.erro e, s) => (.excecao e, s)
              | (.ok _, s7) =>
                match s7.sacar c2 100 with
                | (.erro e, s) => (.excecao e, s)
                | (.ok _, s8) => (.concluido, s8)

/-! ## The original `class Banco` of `original/OriginalClasses.cpp`

The original `Conta` has the fields and the method bodies of the refactored one, reading
`chrono::system_clock::now()` where the refactored one reads `clock_.now()`; the system
clock is the `relogio` field below. -/

namespace Original

/-- The fields of the original `class Banco`, and the system clock. -/
structure Banco where
  clientes_ : List (String × Cliente)
  contas_ : List (String × Conta)
  seq_cliente_ : Nat
  seq_conta_ : Nat
  relogio : Relogio

namespace Banco

/-- A default-constructed `Banco`. -/
def novo (relogio : Relogio) : Banco :=
  { clientes_ := [], contas_ := [], seq_cliente_ := 1, seq_conta_ := 1001, relogio := relogio }

/-- Method `Banco::to_centavos`: `llround(valor * 100.0)` on the `double` `valor`. -/
def to_centavos (valor : ℚ) : Resultado Int :=
  let c := llround (Double.vezes (Double.deRacional valor) 100)
  if c = 0 then .erro .ValorInvalido else .ok c

/-- Method `Banco::criar_cliente`. -/
def criar_cliente (b : Banco) (nome cpf : String) : Cliente × Banco :=
  match Mapa.find b.clientes_ cpf with
  | some c => (c, b)
  | none =>
    let c : Cliente := { id := b.seq_cliente_, nome := nome, cpf := cpf }
    (c, { b with clientes_ := Mapa.set b.clientes_ cpf c, seq_cliente_ := b.seq_cliente_ + 1 })

/-- Method `Banco::abrir_conta`: `contas_[numero] = make_unique<Conta>(numero, it->second)`
copies `numero`, so the account is filed under its number; the pointer returned is the
slot just assigned. -/
def abrir_conta (b : Banco) (cpf : String) : Resultado Conta × Banco :=
  match Mapa.find b.clientes_ cpf with
  | none => (.erro .EntidadeNaoEncontrada, b)
  | some c =>
    let numero := toString b.seq_conta_
    let conta := Conta.nova numero c
    (.ok conta, { b with contas_ := Mapa.set b.contas_ numero conta,
                         seq_conta_ := b.seq_conta_ + 1 })

/-- Method `Banco::buscar_conta`. -/
def buscar_conta (b : Banco) (numero : String) : Resultado Conta :=
  match Mapa.find b.contas_ numero with
  | none => .erro .EntidadeNaoEncontrada
  | some c => .ok c

/-- Method `Banco::depositar`. -/
def depositar (b : Banco) (numero : String) (valor : ℚ) : Resultado Unit × Banco :=
  match b.buscar_conta numero with
  | .erro e => (.erro e, b)
  | .ok conta =>
    match to_centavos valor with
    | .erro e => (.erro e, b)
    | .ok c =>
      let r := conta.depositar b.relogio c "depósito"
      (r.1, { b with contas_ := Mapa.set b.contas_ numero r.2.1, relogio := r.2.2 })

/-- Method `Banco::sacar`. -/
def sacar (b : Banco) (numero : String) (valor : ℚ) : Resultado Unit × Banco :=
  match b.buscar_conta numero with
  | .erro e => (.erro e, b)
  | .ok conta =>
    match to_centavos valor with
    | .erro e => (.erro e, b)
    | .ok c =>
      let r := conta.sacar b.relogio c "saque"
      (r.1, { b with contas_ := Mapa.set b.contas_ numero r.2.1, relogio := r.2.2 })

/-- Method `Banco::transferir`. -/
def transferir (b : Banco) (origem destino : String) (valor : ℚ) : Resultado Unit × Banco :=
  if origem = destino then (.erro .ValorInvalido, b)
  else
    match to_centavos valor with
    | .erro e => (.erro e, b)
    | .ok c =>
      match b.buscar_conta origem with
      | .erro e => (.erro e, b)
      | .ok co =>
        match b.buscar_conta destino with
        | .erro e => (.erro e, b)
        | .ok cd =>
          let r1 := co.sacar b.relogio c ("transferência para " ++ destino)
          let b1 := { b with contas_ := Mapa.set b.contas_ origem r1.2.1, relogio := r1.2.2 }
          match r1.1 with
          | .erro e => (.erro e, b1)
          | .ok _ =>
            let r2 := cd.depositar b1.relogio c ("transferência de " ++ origem)
            let b2 := { b1 with contas_ := Mapa.set b1.contas_ destino r2.2.1,
                                relogio := r2.2.2 }
            match r2.1 with
            | .erro e => (.erro e, b2)
            | .ok _ =>
              let agora := b2.relogio.now
              let t : Transacao :=
                { momento := agora.1, tipo := "TRANSFERENCIA", centavos := c,
                  descricao := "transferência", origem := origem, destino := destino }
              let b3 := { b2 with contas_ := Mapa.set b2.contas_ origem (r1.2.1.registrar t),
                                  relogio := agora.2 }
              (.ok (), { b3 with contas_ := Mapa.set b3.contas_ destino (r2.2.1.registrar t) })

/-- Method `Banco::extrato`. -/
def extrato (b : Banco) (numero : String) : Resultado (List Transacao) :=
  match b.buscar_conta numero with
  | .erro e => .erro e
  | .ok conta => .ok conta.historico_

/-- Method `Banco::criar_dados_mock`, run against the given system clock. -/
def criar_dados_mock (relogio : Relogio) : Desfecho × Banco :=
  let a := (novo relogio).criar_cliente "Ana" "11111111111"
  match a.2.abrir_conta a.1.cpf with
  | (.erro e, b) => (.excecao e, b)
  | (.ok p1, b1) =>
    let c1 := p1.numero_
    let br := b1.criar_cliente "Bruno" "22222222222"
    match br.2.abrir_conta br.1.cpf with
    | (.erro e, b) => (.excecao e, b)
    | (.ok p2, b2) =>
      let c2 := p2.numero_
      let ca := b2.criar_cliente "Carla" "33333333333"
      match ca.2.abrir_conta ca.1.cpf with
      | (.erro e, b) => (.excecao e, b)
      | (.ok p3, b3) =>
        let c3 := p3.numero_
        match b3.depositar c1 1500 with
        | (.erro e, b) => (.excecao e, b)
        | (.ok _, b4) =>
          match b4.depositar c2 800 with
          | (.erro e, b) => (.excecao e, b)
          | (.ok _, b5) =>
            match b5.depositar c3 2500 with
            | (.erro e, b) => (.excecao e, b)
            | (.ok _, b6) =>
              match b6.transferir c3 c1 300 with
              | (.erro e, b) => (.excecao e, b)
              | (.ok _, b7) =>
                match b7.sacar c2 100 with
                | (.erro e, b) => (.excecao e, b)
                | (.ok _, b8) => (.concluido, b8)

end Banco

end Original

/-! ## Sample states -/

/-- A clock whose n-th reading is `n`. -/
def exemplo.relogio : Relogio := { leituras := fun n => n, chamadas := 0 }

/-- Customer Ana. -/
def exemplo.ana : Cliente := { id := 1, nome := "Ana", cpf := "111" }

/-- An account holding 500 centavos. -/
def exemplo.conta : Conta :=
  { numero_ := "1001", cliente_ := exemplo.ana, centavos_ := 500, historico_ := [] }

/-- A ledger whose directory holds two accounts under their own numbers: Ana's "1001"
(500 centavos) and Bruno's "1002" (empty). -/
def exemplo.banco : BancoService :=
  { clientes_ := { map_ := [("111", exemplo.ana), ("222", { id := 2, nome := "Bruno", cpf := "222" })],
                   seq_ := 3 },
    contas_ := { map_ := [("1001", exemplo.conta),
                          ("1002", Conta.nova "1002" { id := 2, nome := "Bruno", cpf := "222" })],
                 seq_ := 1003 },
    clock_ := exemplo.relogio }

/-- A ledger whose two accounts carry the history of their balance: "1001" received one
deposit of 500 centavos, "1002" is fresh. -/
def exemplo.livro : BancoService :=
  { clientes_ := exemplo.banco.clientes_,
    contas_ := { map_ := [("1001", { numero_ := "1001", cliente_ := exemplo.ana,
                                     centavos_ := 500,
                                     historico_ := [{ momento := -1, tipo := "DEPOSITO",
                                                      centavos := 500,
                                                      descricao := "depósito", origem := "",
                                                      destino := "1001" }] }),
                          ("1002", Conta.nova "1002" { id := 2, nome := "Bruno", cpf := "222" })],
                 seq_ := 1003 },
    clock_ := exemplo.relogio }

/-- Calls on `exemplo.livro`: 3.00 goes from "1001" to "1002", 10.00 is deposited on "1002"
and 1.00 withdrawn from "1001". -/
def exemplo.movimentos : List BancoService.Chamada :=
  [.transferir "1001" "1002" 3, .depositar "1002" 10, .sacar "1001" 1]

/-- A run on the empty ledger: Ana opens an account, filed under the empty key, and
90000000000000000.00 is deposited there twice. -/
def exemplo.depositos : List BancoService.Chamada :=
  [.criar_cliente "Ana" "111", .abrir_conta "111", .depositar "" 90000000000000000,
   .depositar "" 90000000000000000]

/-- A run on the empty ledger: Ana opens an account, which the directory files under the
empty key; 10.00 is deposited there and 4.00 withdrawn. -/
def exemplo.chamadas : List BancoService.Chamada :=
  [.criar_cliente "Ana" "111", .abrir_conta "111", .depositar "" 10, .sacar "" 4]

/-- Ana's account at the end of `exemplo.chamadas`. -/
def exemplo.contaFinal : Conta :=
  { numero_ := "1001", cliente_ := exemplo.ana, centavos_ := 600,
    historico_ := [{ momento := 0, tipo := "DEPOSITO", centavos := 1000,
                     descricao := "depósito", origem := "", destino := "1001" },
                   { momento := 1, tipo := "SAQUE", centavos := 400,
                     descricao := "saque", origem := "1001", destino := "" }] }

/-! ## Auxiliary notions for the proofs -/

/-- Reading a decimal numeral back: a left inverse of `to_string` on naturals. -/
def valorDecimal (l : List Char) : Nat :=
  l.foldl (fun a ch => 10 * a + (ch.toNat - 48)) 0

/-! ## The directory as a finite map -/

theorem Mapa.find_set_same {V : Type} (m : List (String × V)) (k : String) (v : V) :
    Mapa.find (Mapa.set m k v) k = some v := by
  induction m with
  | nil => simp [Mapa.set, Mapa.find]
  | cons h t ih =>
    obtain ⟨k', v'⟩ := h
    by_cases hk : k' = k <;> simp [Mapa.set, Mapa.find, hk, ih]

theorem Mapa.find_set_other {V : Type} (m : List (String × V)) (k j : String) (v : V)
    (hne : j ≠ k) : Mapa.find (Mapa.set m k v) j = Mapa.find m j := by
  induction m with
  | nil => simp [Mapa.set, Mapa.find, Ne.symm hne]
  | cons h t ih =>
    obtain ⟨k', v'⟩ := h
    by_cases hk : k' = k
    · subst hk
      simp [Mapa.set, Mapa.find, Ne.symm hne]
    · by_cases hj : k' = j
      · subst hj
        simp [Mapa.set, Mapa.find, hk]
      · simp [Mapa.set, Mapa.find, hk, hj, ih]

theorem Mapa.set_find_self {V : Type} (m : List (String × V)) (k : String) (v : V)
    (h : Mapa.find m k = some v) : Mapa.set m k v = m := by
  induction m with
  | nil => simp [Mapa.find] at h
  | cons hd t ih =>
    obtain ⟨k', v'⟩ := hd
    by_cases hk : k' = k
    · subst hk
      simp [Mapa.find] at h
      simp [Mapa.set, h]
    · simp [Mapa.find, hk] at h
      simp [Mapa.set, hk, ih h]

theorem Mapa.mem_set {V : Type} (m : List (String × V)) (k : String) (v : V)
    (x : String × V) (hx : x ∈ Mapa.set m k v) : x = (k, v) ∨ x ∈ m := by
  induction m with
  | nil => simpa [Mapa.set] using hx
  | cons hd t ih =>
    obtain ⟨k', v'⟩ := hd
    by_cases hk : k' = k
    · simp [Mapa.set, hk] at hx
      rcases hx with h | h
      · exact Or.inl h
      · exact Or.inr (List.mem_cons_of_mem _ h)
    · simp [Mapa.set, hk] at hx
      rcases hx with h | h
      · exact Or.inr (by simp [h])
      · rcases ih h with h' | h'
        · exact Or.inl h'
        · exact Or.inr (List.mem_cons_of_mem _ h')

theorem Mapa.find_mem {V : Type} (m : List (String × V)) (k : String) (v : V)
    (h : Mapa.find m k = some v) : (k, v) ∈ m := by
  induction m with
  | nil => simp [Mapa.find] at h
  | cons hd t ih =>
    obtain ⟨k', v'⟩ := hd
    by_cases hk : k' = k
    · subst hk
      simp [Mapa.find] at h
      simp [h]
    · simp [Mapa.find, hk] at h
      exact List.mem_cons_of_mem _ (ih h)

/-! ## Arithmetic of `long long` -/

/-- A value within the range is held as it is. -/
theorem LongLong.envolver_cabe (x : Int) (h : LongLong.cabe x) : LongLong.envolver x = x := by
  obtain ⟨h1, h2⟩ := h
  unfold LongLong.envolver
  omega

/-- What a register holds is within the range. -/
theorem LongLong.cabe_envolver (x : Int) : LongLong.cabe (LongLong.envolver x) := by
  unfold LongLong.envolver
  constructor <;> omega

/-- Adding to a held value and to the value itself give the same register content. -/
theorem LongLong.envolver_soma (a b : Int) :
    LongLong.envolver (LongLong.envolver a + b) = LongLong.envolver (a + b) := by
  unfold LongLong.envolver
  omega

/-! ## The account entity -/

/-- C9: withdraw contract of `Conta::sacar`. An amount `a ≤ 0` fails with `ValorInvalido`;
`a > 0` above the balance fails with `SaldoInsuficiente`; otherwise (`0 < a ≤ b`) the
balance becomes `b - a` and exactly one `SAQUE` entry with amount `a`, description `d`,
source this account's number and empty destination is appended; at `a = b` the new
balance is 0. A failing call leaves the account and the clock as they were. -/
theorem Conta.sacar_contrato (self : Conta) (clock_ : Relogio) (a : Int) (d : String) :
    (a ≤ 0 → self.sacar clock_ a d = (.erro .ValorInvalido, self, clock_)) ∧
    (0 < a → self.centavos_ < a →
      self.sacar clock_ a d = (.erro .SaldoInsuficiente, self, clock_)) ∧
    (0 < a → a ≤ self.centavos_ →
      self.sacar clock_ a d =
        (.ok (),
         { numero_ := self.numero_, cliente_ := self.cliente_,
           centavos_ := self.centavos_ - a,
           historico_ := self.historico_ ++
             [{ momento := clock_.now.1, tipo := "SAQUE", centavos := a, descricao := d,
                origem := self.numero_, destino := "" }] },
         clock_.now.2)) ∧
    (0 < a → a = self.centavos_ → (self.sacar clock_ a d).2.1.centavos_ = 0) := by
  refine ⟨fun h => ?_, fun h1 h2 => ?_, fun h1 h2 => ?_, fun h1 h2 => ?_⟩
  · simp [Conta.sacar, h]
  · simp [Conta.sacar, not_le.mpr h1, h2]
  · simp [Conta.sacar, not_le.mpr h1, not_lt.mpr h2]
  · subst h2
    simp [Conta.sacar, not_le.mpr h1]

/-- Witness for C9 on an account holding 500: withdrawing -1, 600, 200 and 500. -/
theorem Conta.sacar_contrato_witness :
    exemplo.conta.sacar exemplo.relogio (-1) "saque"
        = (.erro .ValorInvalido, exemplo.conta, exemplo.relogio) ∧
    exemplo.conta.sacar exemplo.relogio 600 "saque"
        = (.erro .SaldoInsuficiente, exemplo.conta, exemplo.relogio) ∧
    exemplo.conta.sacar exemplo.relogio 200 "saque" =
        (.ok (),
         { numero_ := "1001", cliente_ := exemplo.ana, centavos_ := 500 - 200,
           historico_ := [] ++
             [{ momento := exemplo.relogio.now.1, tipo := "SAQUE", centavos := 200,
                descricao := "saque", origem := "1001", destino := "" }] },
         exemplo.relogio.now.2) ∧
    (exemplo.conta.sacar exemplo.relogio 500 "saque").2.1.centavos_ = 0 :=
  ⟨(Conta.sacar_contrato exemplo.conta exemplo.relogio (-1) "saque").1 (by decide),
   (Conta.sacar_contrato exemplo.conta exemplo.relogio 600 "saque").2.1 (by decide) (by decide),
   (Conta.sacar_contrato exemplo.conta exemplo.relogio 200 "saque").2.2.1 (by decide) (by decide),
   (Conta.sacar_contrato exemplo.conta exemplo.relogio 500 "saque").2.2.2 (by decide) (by decide)⟩

/-- C10 (amended): deposit contract of `Conta::depositar`. An amount `a ≤ 0` fails with
`ValorInvalido` (account and clock untouched); otherwise the balance becomes the 64-bit
value of `b + a` and exactly one `DEPOSITO` entry with amount `a`, description `d`, the
reading `now()` returns as timestamp, empty source and destination this account's number
is appended. The new balance is `b + a` whenever `b + a` fits `long long`. -/
theorem Conta.depositar_contrato (self : Conta) (clock_ : Relogio) (a : Int) (d : String) :
    (a ≤ 0 → self.depositar clock_ a d = (.erro .ValorInvalido, self, clock_)) ∧
    (0 < a →
      self.depositar clock_ a d =
        (.ok (),
         { numero_ := self.numero_, cliente_ := self.cliente_,
           centavos_ := LongLong.envolver (self.centavos_ + a),
           historico_ := self.historico_ ++
             [{ momento := clock_.now.1, tipo := "DEPOSITO", centavos := a,
                descricao := d, origem := "", destino := self.numero_ }] },
         clock_.now.2)) ∧
    (0 < a → LongLong.cabe (self.centavos_ + a) →
      self.depositar clock_ a d =
        (.ok (),
         { numero_ := self.numero_, cliente_ := self.cliente_,
           centavos_ := self.centavos_ + a,
           historico_ := self.historico_ ++
             [{ momento := clock_.now.1, tipo := "DEPOSITO", centavos := a,
                descricao := d, origem := "", destino := self.numero_ }] },
         clock_.now.2)) := by
  refine ⟨fun h => ?_, fun h => ?_, fun h hc => ?_⟩
  · simp [Conta.depositar, h]
  · simp [Conta.depositar, not_le.mpr h]
  · simp [Conta.depositar, not_le.mpr h, LongLong.envolver_cabe _ hc]

/-- Witness for C10 on an account holding 500: depositing 0 and 250. -/
theorem Conta.depositar_contrato_witness :
    exemplo.conta.depositar exemplo.relogio 0 "depósito"
        = (.erro .ValorInvalido, exemplo.conta, exemplo.relogio) ∧
    LongLong.cabe (exemplo.conta.centavos_ + 250) ∧
    exemplo.conta.depositar exemplo.relogio 250 "depósito" =
        (.ok (),
         { numero_ := "1001", cliente_ := exemplo.ana, centavos_ := 500 + 250,
           historico_ := [] ++
             [{ momento := exemplo.relogio.now.1, tipo := "DEPOSITO", centavos := 250,
                descricao := "depósito", origem := "", destino := "1001" }] },
         exemplo.relogio.now.2) :=
  ⟨(Conta.depositar_contrato exemplo.conta exemplo.relogio 0 "depósito").1 (by decide),
   by decide,
   (Conta.depositar_contrato exemplo.conta exemplo.relogio 250 "depósito").2.2 (by decide)
     (by decide)⟩

/-- C10 as claimed (the balance becomes `b + a` for every `a > 0`) fails when `b + a`
leaves the range of `long long`: depositing `LLONG_MAX` on an account holding 500 is
accepted and leaves the balance -9223372036854775309, where `b + a` is
9223372036854776307. -/
theorem Conta.depositar_estouro :
    (exemplo.conta.depositar exemplo.relogio 9223372036854775807 "depósito").1 = .ok () ∧
    (exemplo.conta.depositar exemplo.relogio 9223372036854775807 "depósito").2.1.centavos_
      = -9223372036854775309 ∧
    exemplo.conta.centavos_ + 9223372036854775807 = 9223372036854776307 := by
  decide!

/-- A failing `Conta::sacar` changes neither the account nor the clock. -/
theorem Conta.sacar_falha (self : Conta) (clock_ : Relogio) (a : Int) (d : String) (e : Erro)
    (h : (self.sacar clock_ a d).1 = .erro e) : (self.sacar clock_ a d).2 = (self, clock_) := by
  unfold Conta.sacar at h ⊢
  split_ifs at h ⊢
  all_goals rfl

/-- A failing `Conta::depositar` changes neither the account nor the clock. -/
theorem Conta.depositar_falha (self : Conta) (clock_ : Relogio) (a : Int) (d : String)
    (e : Erro) (h : (self.depositar clock_ a d).1 = .erro e) :
    (self.depositar clock_ a d).2 = (self, clock_) := by
  unfold Conta.depositar at h ⊢
  split_ifs at h ⊢
  all_goals rfl

/-- A successful `Conta::sacar` was asked for a positive amount within the balance. -/
theorem Conta.sacar_ok (self : Conta) (clock_ : Relogio) (a : Int) (d : String)
    (h : (self.sacar clock_ a d).1 = .ok ()) : 0 < a ∧ a ≤ self.centavos_ := by
  unfold Conta.sacar at h
  split_ifs at h with h1 h2
  omega

/-- A successful `Conta::depositar` was asked for a positive amount. -/
theorem Conta.depositar_ok (self : Conta) (clock_ : Relogio) (a : Int) (d : String)
    (h : (self.depositar clock_ a d).1 = .ok ()) : 0 < a := by
  unfold Conta.depositar at h
  split_ifs at h with h1
  omega

/-- Writing back the account a pointer already designates changes nothing. -/
theorem ContasMem.gravar_mesma (r : ContasMem) (numero : String) (conta : Conta)
    (h : r.find numero = some conta) : r.gravar numero conta = r := by
  cases r
  simp only [ContasMem.gravar, ContasMem.find] at h ⊢
  rw [Mapa.set_find_self _ _ _ h]

/-! ## The service: error paths -/

/-- C4: self-transfer rejected. For every state, account number `A` (existing or not)
and value `v`, `transferir(A, A, v)` fails with `ValorInvalido` and leaves the whole
state, hence every balance, unchanged. -/
theorem BancoService.transferir_mesma_conta (s : BancoService) (A : String) (v : ℚ) :
    s.transferir A A v = (.erro .ValorInvalido, s) := by
  simp [BancoService.transferir]

/-- C5: non-positive amounts rejected. For an existing account `A` and a value whose
conversion `llround(v * 100.0)` is `≤ 0`, `depositar(A, v)` and `sacar(A, v)` fail with
`ValorInvalido` and leave the state (balance and history of `A` included) unchanged. -/
theorem BancoService.valor_nao_positivo (s : BancoService) (A : String) (a : Conta) (v : ℚ)
    (hA : s.contas_.find A = some a)
    (hv : llround (Double.vezes (Double.deRacional v) 100) ≤ 0) :
    s.depositar A v = (.erro .ValorInvalido, s) ∧ s.sacar A v = (.erro .ValorInvalido, s) := by
  have hg := ContasMem.gravar_mesma s.contas_ A a hA
  by_cases h0 : llround (Double.vezes (Double.deRacional v) 100) = 0
  · simp [BancoService.depositar, BancoService.sacar, BancoService.buscar_conta, hA,
      MoedaBRL.paraCentavos, h0]
  · simp [BancoService.depositar, BancoService.sacar, BancoService.buscar_conta, hA,
      MoedaBRL.paraCentavos, h0, Conta.depositar, Conta.sacar, hv, hg]

/-- Witness for C5: depositing or withdrawing -5 on account "1001". -/
theorem BancoService.valor_nao_positivo_witness :
    exemplo.banco.depositar "1001" (-5) = (.erro .ValorInvalido, exemplo.banco) ∧
    exemplo.banco.sacar "1001" (-5) = (.erro .ValorInvalido, exemplo.banco) :=
  BancoService.valor_nao_positivo exemplo.banco "1001" exemplo.conta (-5) (by decide)
    (by decide!)

/-- C6: unknown account lookups fail. For an account number `n` not in the directory and
any value `v`, `depositar(n, v)` and `sacar(n, v)` fail with `EntidadeNaoEncontrada`
whatever `v` converts to, and so does `extrato(n)`; the state is unchanged. -/
theorem BancoService.conta_desconhecida (s : BancoService) (n : String) (v : ℚ)
    (hn : s.contas_.find n = none) :
    s.depositar n v = (.erro .EntidadeNaoEncontrada, s) ∧
    s.sacar n v = (.erro .EntidadeNaoEncontrada, s) ∧
    s.extrato n = .erro .EntidadeNaoEncontrada := by
  simp [BancoService.depositar, BancoService.sacar, BancoService.extrato,
    BancoService.buscar_conta, hn]

/-- Witness for C6: account "9999" does not exist and the value 0 converts to zero. -/
theorem BancoService.conta_desconhecida_witness :
    exemplo.banco.depositar "9999" 0 = (.erro .EntidadeNaoEncontrada, exemplo.banco) ∧
    exemplo.banco.sacar "9999" 0 = (.erro .EntidadeNaoEncontrada, exemplo.banco) ∧
    exemplo.banco.extrato "9999" = .erro .EntidadeNaoEncontrada :=
  BancoService.conta_desconhecida exemplo.banco "9999" 0 (by decide)

/-! ## The service: transfers -/

theorem BancoService.abrir_conta_erro (s : BancoService) (cpf : String) (e : Erro)
    (h : (s.abrir_conta cpf).1 = .erro e) : (s.abrir_conta cpf).2 = s := by
  unfold BancoService.abrir_conta at h ⊢
  cases hc : s.clientes_.getByCpf cpf with
  | none => rfl
  | some c => simp [hc] at h

theorem BancoService.depositar_erro (s : BancoService) (n : String) (v : ℚ) (e : Erro)
    (h : (s.depositar n v).1 = .erro e) : (s.depositar n v).2 = s := by
  unfold BancoService.depositar BancoService.buscar_conta at h ⊢
  cases hf : s.contas_.find n with
  | none => rfl
  | some conta =>
    cases hc : MoedaBRL.paraCentavos v with
    | erro e' => simp [hc]
    | ok c =>
      simp only [hf, hc] at h ⊢
      rw [Conta.depositar_falha conta s.clock_ c _ e h]
      simp [ContasMem.gravar_mesma _ _ _ hf]

theorem BancoService.sacar_erro (s : BancoService) (n : String) (v : ℚ) (e : Erro)
    (h : (s.sacar n v).1 = .erro e) : (s.sacar n v).2 = s := by
  unfold BancoService.sacar BancoService.buscar_conta at h ⊢
  cases hf : s.contas_.find n with
  | none => rfl
  | some conta =>
    cases hc : MoedaBRL.paraCentavos v with
    | erro e' => simp [hc]
    | ok c =>
      simp only [hf, hc] at h ⊢
      rw [Conta.sacar_falha conta s.clock_ c _ e h]
      simp [ContasMem.gravar_mesma _ _ _ hf]

/-- Once the debit of a transfer has succeeded, the credit of the same amount succeeds. -/
theorem Conta.credito_apos_debito (co cd : Conta) (clock_ clock1 : Relogio) (c : Int)
    (d1 d2 : String) (h : (co.sacar clock_ c d1).1 = .ok ()) :
    (cd.depositar clock1 c d2).1 = .ok () := by
  have hpos := (Conta.sacar_ok co clock_ c d1 h).1
  simp [Conta.depositar, not_le.mpr hpos]

theorem BancoService.transferir_erro (s : BancoService) (o d : String) (v : ℚ) (e : Erro)
    (h : (s.transferir o d v).1 = .erro e) : (s.transferir o d v).2 = s := by
  unfold BancoService.transferir BancoService.buscar_conta at h ⊢
  by_cases hod : o = d
  · simp [hod]
  · rw [if_neg hod] at h ⊢
    cases hc : MoedaBRL.paraCentavos v with
    | erro e' => simp [hc]
    | ok c =>
      cases hfo : s.contas_.find o with
      | none => simp [hc, hfo]
      | some co =>
        cases hfd : s.contas_.find d with
        | none => simp [hc, hfo, hfd]
        | some cd =>
          simp only [hc, hfo, hfd] at h ⊢
          cases hr1 : (co.sacar s.clock_ c ("transferência para " ++ d)).1 with
          | erro e1 =>
            rw [Conta.sacar_falha co s.clock_ c _ e1 hr1]
            simp [hr1, ContasMem.gravar_mesma _ _ _ hfo]
          | ok u =>
            have hr2 := Conta.credito_apos_debito co cd s.clock_
              (co.sacar s.clock_ c ("transferência para " ++ d)).2.2 c _
              ("transferência de " ++ o) hr1
            simp [hr1, hr2] at h

/-- C3: failure atomicity. Whenever `abrir_conta`, `depositar`, `sacar` or `transferir`
throws, the whole state afterwards (customers, accounts, balances, histories, counters,
clock) equals the state before the call; `extrato` never writes. Within `transferir`,
once the debit on the source has succeeded the credit on the destination cannot fail, so
no transfer ends with only the debit applied. -/
theorem BancoService.falha_atomica (s : BancoService) :
    (∀ cpf e, (s.abrir_conta cpf).1 = .erro e → (s.abrir_conta cpf).2 = s) ∧
    (∀ n v e, (s.depositar n v).1 = .erro e → (s.depositar n v).2 = s) ∧
    (∀ n v e, (s.sacar n v).1 = .erro e → (s.sacar n v).2 = s) ∧
    (∀ o d v e, (s.transferir o d v).1 = .erro e → (s.transferir o d v).2 = s) ∧
    (∀ n, s.aplicar (.extrato n) = s) ∧
    (∀ (co cd : Conta) (c : Int) (d1 d2 : String),
      (co.sacar s.clock_ c d1).1 = .ok () →
      (cd.depositar (co.sacar s.clock_ c d1).2.2 c d2).1 = .ok ()) :=
  ⟨BancoService.abrir_conta_erro s, BancoService.depositar_erro s, BancoService.sacar_erro s,
   BancoService.transferir_erro s, fun _ => rfl,
   fun co cd c d1 d2 h => Conta.credito_apos_debito co cd s.clock_ _ c d1 d2 h⟩

/-- Witness for C3 on the sample ledger: opening an account for an unknown customer,
depositing 0, withdrawing 9.00 from 500 centavos and transferring 9.00 all fail and
leave the ledger as it was; after a debit of 300 the credit of 300 succeeds. -/
theorem BancoService.falha_atomica_witness :
    (exemplo.banco.abrir_conta "999").2 = exemplo.banco ∧
    (exemplo.banco.depositar "1001" 0).2 = exemplo.banco ∧
    (exemplo.banco.sacar "1001" 9).2 = exemplo.banco ∧
    (exemplo.banco.transferir "1001" "1002" 9).2 = exemplo.banco ∧
    ((Conta.nova "1002" exemplo.ana).depositar
      (exemplo.conta.sacar exemplo.banco.clock_ 300 "a").2.2 300 "b").1 = .ok () :=
  have hc : MoedaBRL.paraCentavos 9 = .ok 900 := by
    decide!
  have h0 : MoedaBRL.paraCentavos 0 = .erro .ValorInvalido := by
    decide!
  ⟨(BancoService.falha_atomica exemplo.banco).1 "999" .EntidadeNaoEncontrada (by decide),
   (BancoService.falha_atomica exemplo.banco).2.1 "1001" 0 .ValorInvalido
     (by simp [BancoService.depositar, BancoService.buscar_conta, ContasMem.find,
        exemplo.banco, Mapa.find, h0]),
   (BancoService.falha_atomica exemplo.banco).2.2.1 "1001" 9 .SaldoInsuficiente
     (by simp [BancoService.sacar, BancoService.buscar_conta, ContasMem.find,
        exemplo.banco, Mapa.find, hc, Conta.sacar, exemplo.conta]),
   (BancoService.falha_atomica exemplo.banco).2.2.2.1 "1001" "1002" 9 .SaldoInsuficiente
     (by simp [BancoService.transferir, BancoService.buscar_conta, ContasMem.find,
        exemplo.banco, Mapa.find, hc, Conta.sacar, exemplo.conta]),
   (BancoService.falha_atomica exemplo.banco).2.2.2.2.2 exemplo.conta
     (Conta.nova "1002" exemplo.ana) 300 "a" "b" (by decide)⟩

/-! ## Balances never go negative -/

theorem Conta.depositar_saldo (self : Conta) (clock_ : Relogio) (c : Int) (d : String)
    (h : 0 ≤ self.centavos_) (hc : LongLong.cabe (self.centavos_ + c)) :
    0 ≤ (self.depositar clock_ c d).2.1.centavos_ := by
  unfold Conta.depositar
  split_ifs with h1
  · exact h
  · show 0 ≤ LongLong.envolver (self.centavos_ + c)
    rw [LongLong.envolver_cabe _ hc]
    omega

theorem Conta.sacar_saldo (self : Conta) (clock_ : Relogio) (c : Int) (d : String)
    (h : 0 ≤ self.centavos_) : 0 ≤ (self.sacar clock_ c d).2.1.centavos_ := by
  unfold Conta.sacar
  split_ifs with h1 h2
  · exact h
  · exact h
  · show 0 ≤ self.centavos_ - c
    omega

theorem ContasMem.gravar_saldo (r : ContasMem) (numero : String) (conta : Conta)
    (hr : ∀ kv ∈ r.map_, 0 ≤ kv.2.centavos_) (hc : 0 ≤ conta.centavos_) :
    ∀ kv ∈ (r.gravar numero conta).map_, 0 ≤ kv.2.centavos_ := by
  intro kv hkv
  rcases Mapa.mem_set _ _ _ _ hkv with h | h
  · rw [h]
    exact hc
  · exact hr kv h

theorem ContasMem.find_saldo (r : ContasMem) (numero : String) (conta : Conta)
    (hr : ∀ kv ∈ r.map_, 0 ≤ kv.2.centavos_) (hf : r.find numero = some conta) :
    0 ≤ conta.centavos_ :=
  hr (numero, conta) (Mapa.find_mem _ _ _ hf)

/-- What `creditoCabe` says once the account and the amount are known. -/
theorem BancoService.creditoCabe_cabe (s : BancoService) (n : String) (v : ℚ) (conta : Conta)
    (c : Int) (h : s.creditoCabe n v = true) (hf : s.contas_.find n = some conta)
    (hc : MoedaBRL.paraCentavos v = .ok c) : LongLong.cabe (conta.centavos_ + c) := by
  simpa [BancoService.creditoCabe, hf, hc] using h

/-- A call whose credit fits `long long` keeps every balance non-negative. -/
theorem BancoService.aplicar_saldo (s : BancoService) (ch : Chamada)
    (hs : ∀ kv ∈ s.contas_.map_, 0 ≤ kv.2.centavos_) (hch : s.semEstouro ch = true) :
    ∀ kv ∈ (s.aplicar ch).contas_.map_, 0 ≤ kv.2.centavos_ := by
  cases ch with
  | criar_cliente nome cpf =>
    simp only [BancoService.aplicar, BancoService.criar_cliente]
    cases s.clientes_.getByCpf cpf <;> exact hs
  | abrir_conta cpf =>
    simp only [BancoService.aplicar, BancoService.abrir_conta]
    cases s.clientes_.getByCpf cpf with
    | none => exact hs
    | some c =>
      intro kv hkv
      rcases Mapa.mem_set _ _ _ _ hkv with h | h
      · rw [h]
        exact le_refl _
      · exact hs kv h
  | depositar n v =>
    have hcabe := BancoService.creditoCabe_cabe s n v
    simp only [BancoService.aplicar, BancoService.depositar, BancoService.buscar_conta]
    cases hf : s.contas_.find n with
    | none => exact hs
    | some conta =>
      cases hc : MoedaBRL.paraCentavos v with
      | erro e => exact hs
      | ok c =>
        exact ContasMem.gravar_saldo _ _ _ hs
          (Conta.depositar_saldo _ _ _ _ (ContasMem.find_saldo _ _ _ hs hf)
            (hcabe conta c hch hf hc))
  | sacar n v =>
    simp only [BancoService.aplicar, BancoService.sacar, BancoService.buscar_conta]
    cases hf : s.contas_.find n with
    | none => exact hs
    | some conta =>
      cases MoedaBRL.paraCentavos v with
      | erro e => exact hs
      | ok c =>
        exact ContasMem.gravar_saldo _ _ _ hs
          (Conta.sacar_saldo _ _ _ _ (ContasMem.find_saldo _ _ _ hs hf))
  | transferir o d v =>
    have hcabe := BancoService.creditoCabe_cabe s d v
    simp only [BancoService.aplicar, BancoService.transferir, BancoService.buscar_conta]
    split_ifs with hod
    · exact hs
    · cases hc : MoedaBRL.paraCentavos v with
      | erro e => exact hs
      | ok c =>
        cases hfo : s.contas_.find o with
        | none => exact hs
        | some co =>
          cases hfd : s.contas_.find d with
          | none => exact hs
          | some cd =>
            have hco := Conta.sacar_saldo co s.clock_ c ("transferência para " ++ d)
              (ContasMem.find_saldo _ _ _ hs hfo)
            have h1 := ContasMem.gravar_saldo _ o _ hs hco
            simp only []
            cases (co.sacar s.clock_ c ("transferência para " ++ d)).1 with
            | erro e1 => exact h1
            | ok u1 =>
              have hcd := Conta.depositar_saldo cd
                (co.sacar s.clock_ c ("transferência para " ++ d)).2.2 c
                ("transferência de " ++ o) (ContasMem.find_saldo _ _ _ hs hfd)
                (hcabe cd c hch hfd hc)
              have h2 := ContasMem.gravar_saldo _ d _ h1 hcd
              simp only []
              cases (cd.depositar (co.sacar s.clock_ c ("transferência para " ++ d)).2.2 c
                  ("transferência de " ++ o)).1 with
              | erro e2 => exact h2
              | ok u2 =>
                refine ContasMem.gravar_saldo _ d _ (ContasMem.gravar_saldo _ o _ h2 ?_) ?_
                · exact hco
                · exact hcd
  | extrato n => exact hs

/-- C1 (amended): non-negative balance invariant. Start from a ledger in which every
balance is `≥ 0`, as in the empty ledger. After any finite sequence of calls
(`criar_cliente`, `abrir_conta`, `depositar`, `sacar`, `transferir`, `extrato`; returning
or throwing) in which no credit leaves the range of `long long`, every account stored in
the directory has `saldo_centavos() ≥ 0`. -/
theorem BancoService.saldo_nao_negativo (s : BancoService) (chamadas : List Chamada)
    (hs : ∀ kv ∈ s.contas_.map_, 0 ≤ kv.2.centavos_)
    (hch : s.semEstouroTodas chamadas = true) :
    ∀ kv ∈ (s.executar chamadas).contas_.map_, 0 ≤ kv.2.centavos_ := by
  induction chamadas generalizing s with
  | nil => exact hs
  | cons ch resto ih =>
    simp only [BancoService.semEstouroTodas, Bool.and_eq_true] at hch
    exact ih (s.aplicar ch) (BancoService.aplicar_saldo s ch hs hch.1) hch.2

theorem exemplo.paraCentavos_10 : MoedaBRL.paraCentavos 10 = .ok 1000 := by
  decide!

theorem exemplo.abertura :
    (BancoService.vazio exemplo.relogio).executar
      [.criar_cliente "Ana" "111", .abrir_conta "111"] =
    { clientes_ := { map_ := [("111", exemplo.ana)], seq_ := 2 },
      contas_ := { map_ := [("", Conta.nova "1001" exemplo.ana)], seq_ := 1002 },
      clock_ := exemplo.relogio } := by
  rfl

theorem exemplo.mem_final :
    ("", exemplo.contaFinal) ∈
      ((BancoService.vazio exemplo.relogio).executar exemplo.chamadas).contas_.map_ := by
  decide!

/-- Witness for C1. On the empty ledger, after a deposit of 10.00 and a withdrawal of 4.00,
Ana's account, filed under the empty key, holds 600. On a ledger with two accounts, after
a transfer, a deposit and a withdrawal the balances are 100 and 1300. -/
theorem BancoService.saldo_nao_negativo_witness :
    (BancoService.vazio exemplo.relogio).semEstouroTodas exemplo.chamadas = true ∧
    ((BancoService.vazio exemplo.relogio).executar exemplo.chamadas).contas_.map_
      = [("", exemplo.contaFinal)] ∧
    0 ≤ (("", exemplo.contaFinal) : String × Conta).2.centavos_ ∧
    (∀ kv ∈ exemplo.livro.contas_.map_, 0 ≤ kv.2.centavos_) ∧
    exemplo.livro.semEstouroTodas exemplo.movimentos = true ∧
    (exemplo.livro.executar exemplo.movimentos).contas_.map_.map (fun kv => kv.2.centavos_)
      = [100, 1300] ∧
    ∀ kv ∈ (exemplo.livro.executar exemplo.movimentos).contas_.map_, 0 ≤ kv.2.centavos_ :=
  ⟨by decide!, by decide!,
   BancoService.saldo_nao_negativo (BancoService.vazio exemplo.relogio) exemplo.chamadas
     (by decide) (by decide!) ("", exemplo.contaFinal) exemplo.mem_final,
   by decide, by decide!, by decide!,
   BancoService.saldo_nao_negativo exemplo.livro exemplo.movimentos (by decide) (by decide!)⟩

/-- C1 as claimed (every balance `≥ 0` after any sequence of calls with any arguments)
fails when a credit leaves the range of `long long`. On the empty ledger Ana opens an
account and 90000000000000000.00 is deposited twice; both deposits are accepted
(9000000000000000000 centavos each) and the balance ends at -446744073709551616. -/
theorem BancoService.saldo_negativo :
    (((BancoService.vazio exemplo.relogio).executar
        [.criar_cliente "Ana" "111", .abrir_conta "111"]).depositar ""
        90000000000000000).1 = .ok () ∧
    (((BancoService.vazio exemplo.relogio).executar
        [.criar_cliente "Ana" "111", .abrir_conta "111",
         .depositar "" 90000000000000000]).depositar "" 90000000000000000).1 = .ok () ∧
    ((BancoService.vazio exemplo.relogio).executar exemplo.depositos).contas_.map_.map
      (fun kv => kv.2.centavos_) = [-446744073709551616] := by
  decide!

/-! ## Account numbers: `to_string` never repeats -/

theorem digitChar_valor (d : Nat) (h : d < 10) : (Nat.digitChar d).toNat - 48 = d := by
  interval_cases d <;> rfl

theorem toDigitsCore_valor (fuel : Nat) : ∀ (n : Nat) (ds : List Char), n < fuel →
    (Nat.toDigitsCore 10 fuel n ds).foldl (fun a ch => 10 * a + (ch.toNat - 48)) 0 =
      ds.foldl (fun a ch => 10 * a + (ch.toNat - 48)) n := by
  induction fuel with
  | zero => intro n ds h; omega
  | succ fuel ih =>
    intro n ds h
    have hd := digitChar_valor (n % 10) (Nat.mod_lt _ (by decide))
    by_cases h0 : n / 10 = 0
    · have hn : n % 10 = n := by omega
      rw [hn] at hd
      simp [Nat.toDigitsCore, h0, hd, hn]
    · have hlt : n / 10 < fuel := by omega
      simp only [Nat.toDigitsCore, h0, if_false]
      rw [ih (n / 10) _ hlt]
      simp only [List.foldl_cons, hd]
      have hn : 10 * (n / 10) + n % 10 = n := by omega
      rw [hn]

theorem valorDecimal_toString (n : Nat) : valorDecimal (toString n).data = n := by
  show valorDecimal (Nat.toDigits 10 n) = n
  unfold valorDecimal Nat.toDigits
  rw [toDigitsCore_valor (n + 1) n [] (by omega)]
  rfl

theorem toString_injetiva (a b : Nat) (h : toString a = toString b) : a = b := by
  have := congrArg (fun t => valorDecimal t.data) h
  simpa [valorDecimal_toString] using this

/-- Two directories hand out the same account number only at the same counter value:
`nextNumero` never repeats a number. -/
theorem ContasMem.nextNumero_injetiva (r r' : ContasMem)
    (h : r.nextNumero.1 = r'.nextNumero.1) : r.seq_ = r'.seq_ :=
  toString_injetiva _ _ h

theorem Mapa.find_set {V : Type} (m : List (String × V)) (k j : String) (v : V) :
    Mapa.find (Mapa.set m k v) j = if j = k then some v else Mapa.find m j := by
  by_cases h : j = k
  · subst h
    simp [Mapa.find_set_same]
  · simp [h, Mapa.find_set_other _ _ _ _ h]

/-! ## Histories only grow -/

theorem Conta.depositar_historico (self : Conta) (clock_ : Relogio) (c : Int) (d : String) :
    ∃ novos, (self.depositar clock_ c d).2.1.historico_ = self.historico_ ++ novos := by
  unfold Conta.depositar
  split_ifs with h1
  · exact ⟨[], by simp⟩
  · exact ⟨_, rfl⟩

theorem Conta.sacar_historico (self : Conta) (clock_ : Relogio) (c : Int) (d : String) :
    ∃ novos, (self.sacar clock_ c d).2.1.historico_ = self.historico_ ++ novos := by
  unfold Conta.sacar
  split_ifs with h1 h2
  · exact ⟨[], by simp⟩
  · exact ⟨[], by simp⟩
  · exact ⟨_, rfl⟩

/-- Every call other than `abrir_conta` keeps each account and only appends to its
history, in every state. -/
theorem BancoService.aplicar_historico (s : BancoService) (ch : Chamada)
    (hch : ∀ cpf, ch ≠ .abrir_conta cpf) (k : String) (c : Conta)
    (hf : s.contas_.find k = some c) :
    ∃ c' novos, (s.aplicar ch).contas_.find k = some c' ∧
      c'.historico_ = c.historico_ ++ novos := by
  cases ch with
  | criar_cliente nome cpf =>
    refine ⟨c, [], ?_, by simp⟩
    simp only [BancoService.aplicar, BancoService.criar_cliente]
    cases s.clientes_.getByCpf cpf <;> exact hf
  | abrir_conta cpf => exact absurd rfl (hch cpf)
  | depositar n v =>
    simp only [BancoService.aplicar, BancoService.depositar, BancoService.buscar_conta]
    cases hfn : s.contas_.find n with
    | none => exact ⟨c, [], hf, by simp⟩
    | some conta =>
      cases MoedaBRL.paraCentavos v with
      | erro e => exact ⟨c, [], hf, by simp⟩
      | ok x =>
        simp only [ContasMem.gravar, ContasMem.find, Mapa.find_set]
        by_cases hkn : k = n
        · subst hkn
          rw [hf] at hfn
          cases hfn
          obtain ⟨novos, hn⟩ := Conta.depositar_historico c s.clock_ x "depósito"
          exact ⟨_, novos, by simp, hn⟩
        · exact ⟨c, [], by simpa [hkn] using hf, by simp⟩
  | sacar n v =>
    simp only [BancoService.aplicar, BancoService.sacar, BancoService.buscar_conta]
    cases hfn : s.contas_.find n with
    | none => exact ⟨c, [], hf, by simp⟩
    | some conta =>
      cases MoedaBRL.paraCentavos v with
      | erro e => exact ⟨c, [], hf, by simp⟩
      | ok x =>
        simp only [ContasMem.gravar, ContasMem.find, Mapa.find_set]
        by_cases hkn : k = n
        · subst hkn
          rw [hf] at hfn
          cases hfn
          obtain ⟨novos, hn⟩ := Conta.sacar_historico c s.clock_ x "saque"
          exact ⟨_, novos, by simp, hn⟩
        · exact ⟨c, [], by simpa [hkn] using hf, by simp⟩
  | transferir o d v =>
    simp only [BancoService.aplicar, BancoService.transferir, BancoService.buscar_conta]
    split_ifs with hod
    · exact ⟨c, [], hf, by simp⟩
    · cases MoedaBRL.paraCentavos v with
      | erro e => exact ⟨c, [], hf, by simp⟩
      | ok x =>
        cases hfo : s.contas_.find o with
        | none => exact ⟨c, [], hf, by simp⟩
        | some co =>
          cases hfd : s.contas_.find d with
          | none => exact ⟨c, [], hf, by simp⟩
          | some cd =>
            simp only []
            obtain ⟨n1, hn1⟩ := Conta.sacar_historico co s.clock_ x ("transferência para " ++ d)
            generalize co.sacar s.clock_ x ("transferência para " ++ d) = r1 at hn1 ⊢
            obtain ⟨n2, hn2⟩ := Conta.depositar_historico cd r1.2.2 x ("transferência de " ++ o)
            have hf' : Mapa.find s.contas_.map_ k = some c := hf
            have hfo' : Mapa.find s.contas_.map_ o = some co := hfo
            have hfd' : Mapa.find s.contas_.map_ d = some cd := hfd
            cases r1.1 with
            | erro e1 =>
              simp only [ContasMem.gravar, ContasMem.find, Mapa.find_set]
              by_cases hko : k = o
              · subst hko
                rw [hf'] at hfo'
                cases hfo'
                exact ⟨_, n1, by simp, hn1⟩
              · exact ⟨c, [], by simpa [hko] using hf', by simp⟩
            | ok u1 =>
              simp only []
              generalize cd.depositar r1.2.2 x ("transferência de " ++ o) = r2 at hn2 ⊢
              cases r2.1 with
              | erro e2 =>
                simp only [ContasMem.gravar, ContasMem.find, Mapa.find_set]
                by_cases hkd : k = d
                · subst hkd
                  rw [hf'] at hfd'
                  cases hfd'
                  exact ⟨_, n2, by simp, hn2⟩
                · by_cases hko : k = o
                  · subst hko
                    rw [hf'] at hfo'
                    cases hfo'
                    exact ⟨_, n1, by simp [hkd], hn1⟩
                  · exact ⟨c, [], by simpa [hko, hkd] using hf', by simp⟩
              | ok u2 =>
                simp only [ContasMem.gravar, ContasMem.find, Mapa.find_set]
                by_cases hkd : k = d
                · subst hkd
                  rw [hf'] at hfd'
                  cases hfd'
                  refine ⟨r2.2.1.registrar ⟨r2.2.2.now.1, "TRANSFERENCIA", x, "transferência", o, k⟩,
                    n2 ++ [⟨r2.2.2.now.1, "TRANSFERENCIA", x, "transferência", o, k⟩],
                    by simp, ?_⟩
                  simp [Conta.registrar, hn2]
                · by_cases hko : k = o
                  · subst hko
                    rw [hf'] at hfo'
                    cases hfo'
                    refine ⟨r1.2.1.registrar
                        ⟨r2.2.2.now.1, "TRANSFERENCIA", x, "transferência", k, d⟩,
                      n1 ++ [⟨r2.2.2.now.1, "TRANSFERENCIA", x, "transferência", k, d⟩],
                      by simp [hkd], ?_⟩
                    simp [Conta.registrar, hn1]
                  · exact ⟨c, [], by simpa [hko, hkd] using hf', by simp⟩
  | extrato n => exact ⟨c, [], hf, by simp⟩

/-- C8 (append-only, ordered history) fails on `abrir_conta`. Ana opens an account and
10.00 is deposited on it, so its `extrato` lists one `DEPOSITO`. A second `abrir_conta`
then assigns the new account to the very slot the first one occupies: the first account
is gone and the `extrato` of that slot is empty, so the earlier history is not an initial
segment of the later one. -/
theorem BancoService.historico_perdido :
    ((BancoService.vazio exemplo.relogio).executar
        [.criar_cliente "Ana" "111", .abrir_conta "111", .depositar "" 10]).extrato ""
      = .ok [{ momento := 0, tipo := "DEPOSITO", centavos := 1000, descricao := "depósito",
               origem := "", destino := "1001" }] ∧
    (((BancoService.vazio exemplo.relogio).executar
        [.criar_cliente "Ana" "111", .abrir_conta "111", .depositar "" 10]).aplicar
        (.abrir_conta "111")).extrato "" = .ok [] ∧
    (((BancoService.vazio exemplo.relogio).executar
        [.criar_cliente "Ana" "111", .abrir_conta "111", .depositar "" 10]).aplicar
        (.abrir_conta "111")).extrato "1001" = .erro .EntidadeNaoEncontrada := by
  have h : (BancoService.vazio exemplo.relogio).executar
      [.criar_cliente "Ana" "111", .abrir_conta "111", .depositar "" 10] =
      ((BancoService.vazio exemplo.relogio).executar
        [.criar_cliente "Ana" "111", .abrir_conta "111"]).executar [.depositar "" 10] := rfl
  rw [h, exemplo.abertura]
  simp [BancoService.executar, BancoService.aplicar, BancoService.depositar,
    BancoService.abrir_conta, BancoService.extrato, BancoService.buscar_conta,
    ContasMem.find, ContasMem.add, ContasMem.nextNumero, ClientesMem.getByCpf, Mapa.find,
    exemplo.paraCentavos_10, Conta.depositar, ContasMem.gravar, Mapa.set, Conta.nova,
    Relogio.now, exemplo.relogio, movido]

/-! ## The customer directory -/

theorem Mapa.find_none_not_mem {V : Type} (m : List (String × V)) (k : String)
    (h : Mapa.find m k = none) : k ∉ m.map Prod.fst := by
  induction m with
  | nil => simp
  | cons hd t ih =>
    obtain ⟨k', v'⟩ := hd
    by_cases hk : k' = k
    · simp [Mapa.find, hk] at h
    · simp only [Mapa.find, hk, if_false] at h
      simp only [List.map_cons, List.mem_cons, not_or]
      exact ⟨fun e => hk e.symm, ih h⟩

theorem Mapa.set_find_none {V : Type} (m : List (String × V)) (k : String) (v : V)
    (h : Mapa.find m k = none) : Mapa.set m k v = m ++ [(k, v)] := by
  induction m with
  | nil => rfl
  | cons hd t ih =>
    obtain ⟨k', v'⟩ := hd
    by_cases hk : k' = k
    · simp [Mapa.find, hk] at h
    · simp only [Mapa.find, hk, if_false] at h
      simp [Mapa.set, hk, ih h]

theorem ClientesMem.add_bemFormado (r : ClientesMem) (nome cpf : String)
    (hr : r.BemFormado) : (r.add nome cpf).2.BemFormado := by
  unfold ClientesMem.add
  cases hf : Mapa.find r.map_ cpf with
  | some c => exact hr
  | none =>
    have hset := Mapa.set_find_none r.map_ cpf ⟨r.seq_, nome, cpf⟩ hf
    have hnot := Mapa.find_none_not_mem r.map_ cpf hf
    constructor
    · show ((Mapa.set r.map_ cpf ⟨r.seq_, nome, cpf⟩).map Prod.fst).Nodup
      rw [hset, List.map_append, List.nodup_append]
      refine ⟨hr.1, by simp, ?_⟩
      intro a ha hb
      simp only [List.map_cons, List.map_nil, List.mem_singleton] at hb
      exact hnot (hb ▸ ha)
    · intro kv hkv
      have hkv' : kv ∈ Mapa.set r.map_ cpf ⟨r.seq_, nome, cpf⟩ := hkv
      rw [hset, List.mem_append] at hkv'
      rcases hkv' with h | h
      · exact hr.2 kv h
      · simp only [List.mem_singleton] at h
        rw [h]

theorem ClientesMem.um_por_cpf (r : ClientesMem) (cpf : String) (c : Cliente)
    (hr : r.BemFormado) (hf : r.getByCpf cpf = some c) :
    r.map_.countP (fun kv => kv.1 = cpf) = 1 ∧ r.map_.countP (fun kv => kv.2.cpf = cpf) = 1 := by
  have hmem : cpf ∈ r.map_.map Prod.fst :=
    List.mem_map.mpr ⟨(cpf, c), Mapa.find_mem _ _ _ hf, rfl⟩
  have h1 : (r.map_.map Prod.fst).count cpf = 1 := List.count_eq_one_of_mem hr.1 hmem
  have h2 : r.map_.countP (fun kv => kv.1 = cpf) = 1 := by
    rw [← h1, List.count, List.countP_map]
    apply List.countP_congr
    intro kv _
    simp
  refine ⟨h2, ?_⟩
  rw [← h2]
  apply List.countP_congr
  intro kv hkv
  simp [hr.2 kv hkv]

/-- C7: idempotent customer creation. In every state, `criar_cliente(n, t)` followed by
`criar_cliente(n', t)` returns the same customer both times (same identifier, same stored
name), the second call changes nothing in the state (no new entry, counter not advanced),
and the directory then maps `t` to that customer. When the directory is well formed, as
every directory reached from the empty ledger is, it afterwards holds exactly one entry
under `t` and exactly one customer whose tax id is `t`. -/
theorem BancoService.criar_cliente_idempotente (s : BancoService) (n n' t : String) :
    ((s.criar_cliente n t).2.criar_cliente n' t).1 = (s.criar_cliente n t).1 ∧
    ((s.criar_cliente n t).2.criar_cliente n' t).1.id = (s.criar_cliente n t).1.id ∧
    ((s.criar_cliente n t).2.criar_cliente n' t).1.nome = (s.criar_cliente n t).1.nome ∧
    ((s.criar_cliente n t).2.criar_cliente n' t).2 = (s.criar_cliente n t).2 ∧
    ((s.criar_cliente n t).2.criar_cliente n' t).2.clientes_.getByCpf t
      = some (s.criar_cliente n t).1 ∧
    (s.clientes_.BemFormado →
      ((s.criar_cliente n t).2.criar_cliente n' t).2.clientes_.map_.countP
        (fun kv => kv.1 = t) = 1 ∧
      ((s.criar_cliente n t).2.criar_cliente n' t).2.clientes_.map_.countP
        (fun kv => kv.2.cpf = t) = 1) := by
  have hget : (s.criar_cliente n t).2.clientes_.getByCpf t = some (s.criar_cliente n t).1 := by
    unfold BancoService.criar_cliente
    cases hf : s.clientes_.getByCpf t with
    | some c => simpa using hf
    | none =>
      have hf' : Mapa.find s.clientes_.map_ t = none := hf
      simp [ClientesMem.add, ClientesMem.getByCpf, hf', Mapa.find_set_same]
  have hwf : s.clientes_.BemFormado → (s.criar_cliente n t).2.clientes_.BemFormado := by
    intro hs
    unfold BancoService.criar_cliente
    cases hf : s.clientes_.getByCpf t with
    | some c => exact hs
    | none => exact ClientesMem.add_bemFormado s.clientes_ n t hs
  have h2 : (s.criar_cliente n t).2.criar_cliente n' t
      = ((s.criar_cliente n t).1, (s.criar_cliente n t).2) := by
    generalize s.criar_cliente n t = r at hget
    simp [BancoService.criar_cliente, hget]
  rw [h2]
  exact ⟨rfl, rfl, rfl, rfl, hget, fun hs => ClientesMem.um_por_cpf _ t _ (hwf hs) hget⟩

/-- Witness for C7 on the sample ledger: creating "Carla"/"333" and then "Outra"/"333"
leaves exactly one entry under "333" and one customer with that tax id. -/
theorem BancoService.criar_cliente_idempotente_witness :
    exemplo.banco.clientes_.BemFormado ∧
    ((exemplo.banco.criar_cliente "Carla" "333").2.criar_cliente "Outra" "333").2.clientes_.map_.countP
      (fun kv => kv.1 = "333") = 1 ∧
    ((exemplo.banco.criar_cliente "Carla" "333").2.criar_cliente "Outra" "333").2.clientes_.map_.countP
      (fun kv => kv.2.cpf = "333") = 1 :=
  ⟨⟨by decide, by decide⟩,
   (BancoService.criar_cliente_idempotente exemplo.banco "Carla" "Outra" "333").2.2.2.2.2
     ⟨by decide, by decide⟩⟩

theorem BancoService.aplicar_bemFormado (s : BancoService) (ch : Chamada)
    (hs : s.clientes_.BemFormado) : (s.aplicar ch).clientes_.BemFormado := by
  cases ch with
  | criar_cliente nome cpf =>
    simp only [BancoService.aplicar, BancoService.criar_cliente]
    cases s.clientes_.getByCpf cpf with
    | some c => exact hs
    | none => exact ClientesMem.add_bemFormado s.clientes_ nome cpf hs
  | abrir_conta cpf =>
    simp only [BancoService.aplicar, BancoService.abrir_conta]
    cases s.clientes_.getByCpf cpf <;> exact hs
  | depositar n v =>
    simp only [BancoService.aplicar, BancoService.depositar]
    cases s.buscar_conta n with
    | erro e => exact hs
    | ok conta => cases MoedaBRL.paraCentavos v <;> exact hs
  | sacar n v =>
    simp only [BancoService.aplicar, BancoService.sacar]
    cases s.buscar_conta n with
    | erro e => exact hs
    | ok conta => cases MoedaBRL.paraCentavos v <;> exact hs
  | transferir o d v =>
    simp only [BancoService.aplicar, BancoService.transferir]
    split_ifs with hod
    · exact hs
    · cases MoedaBRL.paraCentavos v with
      | erro e => exact hs
      | ok c =>
        cases s.buscar_conta o with
        | erro e => exact hs
        | ok co =>
          cases s.buscar_conta d with
          | erro e => exact hs
          | ok cd =>
            simp only []
            generalize co.sacar s.clock_ c ("transferência para " ++ d) = r1
            cases r1.1 with
            | erro e1 => exact hs
            | ok u1 =>
              simp only []
              generalize cd.depositar r1.2.2 c ("transferência de " ++ o) = r2
              cases r2.1 <;> exact hs
  | extrato n => exact hs

/-- Every directory reached from the empty ledger is well formed. -/
theorem BancoService.executar_bemFormado (clock : Relogio) (cs : List Chamada) :
    ((BancoService.vazio clock).executar cs).clientes_.BemFormado := by
  have geral : ∀ (l : List Chamada) (s : BancoService),
      s.clientes_.BemFormado → (s.executar l).clientes_.BemFormado := by
    intro l
    induction l with
    | nil => intro s hs; exact hs
    | cons ch resto ih =>
      intro s hs
      exact ih (s.aplicar ch) (BancoService.aplicar_bemFormado s ch hs)
  exact geral cs _ ⟨by simp [BancoService.vazio], by simp [BancoService.vazio]⟩

/-! ## Rounding to binary64 -/

/-- The significand is rounded to an integer nearest to it. -/
theorem Double.inteiroPar_perto (x : ℚ) (n : Int) :
    |((Double.inteiroPar x : Int) : ℚ) - x| ≤ |(n : ℚ) - x| := by
  have h1 := Int.floor_le x
  have h2 := Int.lt_floor_add_one x
  have hm : |((Double.inteiroPar x : Int) : ℚ) - x| ≤ 1 / 2 ∧
      (Double.inteiroPar x = ⌊x⌋ ∨ Double.inteiroPar x = ⌊x⌋ + 1) := by
    unfold Double.inteiroPar
    simp only []
    split_ifs with a b c
    · exact ⟨abs_le.mpr ⟨by linarith, by linarith⟩, Or.inl rfl⟩
    · exact ⟨abs_le.mpr ⟨by push_cast; linarith, by push_cast; linarith⟩, Or.inr rfl⟩
    · exact ⟨abs_le.mpr ⟨by linarith, by linarith⟩, Or.inl rfl⟩
    · exact ⟨abs_le.mpr ⟨by push_cast; linarith, by push_cast; linarith⟩, Or.inr rfl⟩
  obtain ⟨ha, hv⟩ := hm
  by_cases hn : n ≤ ⌊x⌋
  · by_cases hn' : n = ⌊x⌋
    · rcases hv with hv | hv
      · rw [hv, hn']
      · have hx : x - ⌊x⌋ ≥ 1 / 2 := by
          by_contra hlt
          have hlt' : x - ⌊x⌋ < 1 / 2 := not_le.mp hlt
          have : Double.inteiroPar x = ⌊x⌋ := by
            unfold Double.inteiroPar
            simp only [hlt', if_true]
          omega
        rw [hn', hv]
        push_cast
        rw [abs_of_nonneg (by linarith), abs_of_nonpos (by linarith)]
        linarith
    · have hlt : n + 1 ≤ ⌊x⌋ := by omega
      have hlt' : (n : ℚ) + 1 ≤ (⌊x⌋ : ℚ) := by exact_mod_cast hlt
      have := neg_abs_le ((n : ℚ) - x)
      linarith
  · have hgt : ⌊x⌋ + 1 ≤ n := by omega
    have hgt' : (⌊x⌋ : ℚ) + 1 ≤ (n : ℚ) := by exact_mod_cast hgt
    by_cases hn' : n = ⌊x⌋ + 1
    · rcases hv with hv | hv
      · have hx : x - ⌊x⌋ ≤ 1 / 2 := by
          by_contra hlt
          have hlt' : 1 / 2 < x - ⌊x⌋ := not_le.mp hlt
          have : Double.inteiroPar x = ⌊x⌋ + 1 := by
            unfold Double.inteiroPar
            simp only [not_lt.mpr (le_of_lt hlt'), hlt', if_true, if_false]
          omega
        rw [hn', hv]
        push_cast
        rw [abs_of_nonpos (by linarith), abs_of_nonneg (by linarith)]
        linarith
      · rw [hv, hn']
    · have hgt2 : ⌊x⌋ + 2 ≤ n := by omega
      have hgt2' : (⌊x⌋ : ℚ) + 2 ≤ (n : ℚ) := by exact_mod_cast hgt2
      have := le_abs_self ((n : ℚ) - x)
      linarith

/-- A value that is not positive is rounded to a significand that is not positive. -/
theorem Double.inteiroPar_nao_positivo (x : ℚ) (h : x ≤ 0) : Double.inteiroPar x ≤ 0 := by
  have h1 := Int.floor_le x
  have h2 := Int.lt_floor_add_one x
  have hf : ⌊x⌋ ≤ 0 := by
    have : (⌊x⌋ : ℚ) ≤ 0 := by linarith
    exact_mod_cast this
  unfold Double.inteiroPar
  simp only []
  by_cases h0 : ⌊x⌋ = 0
  · have hx : x = 0 := by
      have : (⌊x⌋ : ℚ) = 0 := by exact_mod_cast h0
      linarith
    subst hx
    norm_num
  · have hf' : ⌊x⌋ + 1 ≤ 0 := by omega
    split_ifs <;> omega

/-- The `double` nearest a value that is not positive is not positive. -/
theorem Double.deRacional_nao_positivo (q : ℚ) (h : q ≤ 0) : Double.deRacional q ≤ 0 := by
  unfold Double.deRacional
  split_ifs with h0
  · exact le_refl _
  · simp only []
    have hu : (0 : ℚ) < (2 : ℚ) ^ (max (Double.expoente q) (-1022) - 52) :=
      zpow_pos (by norm_num) _
    have hi := Double.inteiroPar_nao_positivo
      (q / (2 : ℚ) ^ (max (Double.expoente q) (-1022) - 52)) (div_nonpos_of_nonpos_of_nonneg h hu.le)
    have hi' : ((Double.inteiroPar
        (q / (2 : ℚ) ^ (max (Double.expoente q) (-1022) - 52)) : Int) : ℚ) ≤ 0 := by
      exact_mod_cast hi
    exact mul_nonpos_of_nonpos_of_nonneg hi' hu.le

/-- Some binary64 values: 0.1, the halfway cases `2^53 + 1` (down to the even `2^53`) and
`2^53 + 3` (up to the even `2^53 + 4`), the smallest subnormal number taken half as
much again and for a quarter, numbers that are their own `double`, and the product
`0.1 * 3.0`. -/
theorem Double.deRacional_exemplos :
    Double.deRacional (1 / 10) = 3602879701896397 / 36028797018963968 ∧
    Double.deRacional 9007199254740993 = 9007199254740992 ∧
    Double.deRacional 9007199254740995 = 9007199254740996 ∧
    Double.deRacional (3 / 2 * (1 / 2) ^ 1074) = 2 * (1 / 2) ^ 1074 ∧
    Double.deRacional (1 / 4 * (1 / 2) ^ 1074) = 0 ∧
    Double.deRacional 1500 = 1500 ∧
    Double.deRacional (-5) = -5 ∧
    Double.vezes (Double.deRacional (1 / 10)) 3 = 1351079888211149 / 4503599627370496 := by
  decide!

/-! ## Money conversion -/

/-- The value of `inteiroProximo` is an integer nearest to its argument. -/
theorem inteiroProximo_perto (x : ℚ) (n : Int) :
    |((inteiroProximo x : Int) : ℚ) - x| ≤ |(n : ℚ) - x| := by
  unfold inteiroProximo
  split_ifs with h
  · have h1 := Int.floor_le (x + 1 / 2)
    have h2 := Int.lt_floor_add_one (x + 1 / 2)
    have ha : |((⌊x + 1 / 2⌋ : Int) : ℚ) - x| ≤ 1 / 2 := abs_le.mpr ⟨by linarith, by linarith⟩
    rcases lt_trichotomy n ⌊x + 1 / 2⌋ with hn | hn | hn
    · have hn' : (n : ℚ) + 1 ≤ (⌊x + 1 / 2⌋ : ℚ) := by exact_mod_cast hn
      have := neg_abs_le ((n : ℚ) - x)
      linarith
    · rw [hn]
    · have hn' : (⌊x + 1 / 2⌋ : ℚ) + 1 ≤ (n : ℚ) := by exact_mod_cast hn
      have := le_abs_self ((n : ℚ) - x)
      linarith
  · have h1 := Int.floor_le (-x + 1 / 2)
    have h2 := Int.lt_floor_add_one (-x + 1 / 2)
    have ha : |((-⌊-x + 1 / 2⌋ : Int) : ℚ) - x| ≤ 1 / 2 := by
      push_cast
      exact abs_le.mpr ⟨by linarith, by linarith⟩
    rcases lt_trichotomy n (-⌊-x + 1 / 2⌋) with hn | hn | hn
    · have hn' : (n : ℚ) + 1 ≤ -(⌊-x + 1 / 2⌋ : ℚ) := by exact_mod_cast hn
      have := neg_abs_le ((n : ℚ) - x)
      linarith
    · rw [hn]
    · have hn' : -(⌊-x + 1 / 2⌋ : ℚ) + 1 ≤ (n : ℚ) := by exact_mod_cast hn
      have := le_abs_self ((n : ℚ) - x)
      linarith

/-- Among the integers nearest to its argument `inteiroProximo` picks one of greatest
magnitude: halfway cases go away from zero. -/
theorem inteiroProximo_empate (x : ℚ) (n : Int)
    (hn : |(n : ℚ) - x| = |((inteiroProximo x : Int) : ℚ) - x|) : |n| ≤ |inteiroProximo x| := by
  unfold inteiroProximo at hn ⊢
  split_ifs at hn ⊢ with h
  · have h1 := Int.floor_le (x + 1 / 2)
    have h2 := Int.lt_floor_add_one (x + 1 / 2)
    have ha : |((⌊x + 1 / 2⌋ : Int) : ℚ) - x| ≤ 1 / 2 := abs_le.mpr ⟨by linarith, by linarith⟩
    rw [← hn] at ha
    have hb := abs_le.mp ha
    have hr0 : (0 : Int) ≤ ⌊x + 1 / 2⌋ := Int.floor_nonneg.mpr (by linarith)
    have hn1 : (n : ℚ) < (⌊x + 1 / 2⌋ : ℚ) + 1 := by linarith
    have hn2 : (-1 : ℚ) < (n : ℚ) := by linarith
    have hn1' : n < ⌊x + 1 / 2⌋ + 1 := by exact_mod_cast hn1
    have hn2' : -1 < n := by exact_mod_cast hn2
    rw [abs_of_nonneg hr0, abs_of_nonneg (by omega)]
    omega
  · have h1 := Int.floor_le (-x + 1 / 2)
    have h2 := Int.lt_floor_add_one (-x + 1 / 2)
    have ha : |((-⌊-x + 1 / 2⌋ : Int) : ℚ) - x| ≤ 1 / 2 := by
      push_cast
      exact abs_le.mpr ⟨by linarith, by linarith⟩
    rw [← hn] at ha
    have hb := abs_le.mp ha
    have hx : x < 0 := not_le.mp h
    have hr0 : (0 : Int) ≤ ⌊-x + 1 / 2⌋ := Int.floor_nonneg.mpr (by linarith)
    have hn1 : -(⌊-x + 1 / 2⌋ : ℚ) - 1 < (n : ℚ) := by linarith
    have hn2 : (n : ℚ) < 1 := by linarith
    have hn1' : -⌊-x + 1 / 2⌋ - 1 < n := by exact_mod_cast hn1
    have hn2' : n < 1 := by exact_mod_cast hn2
    rw [abs_neg, abs_of_nonneg hr0, abs_of_nonpos (by omega)]
    omega

/-- The nearest integer is zero exactly on the open interval `(-1/2, 1/2)`. -/
theorem inteiroProximo_zero (x : ℚ) : inteiroProximo x = 0 ↔ |x| < 1 / 2 := by
  unfold inteiroProximo
  split_ifs with h
  · rw [Int.floor_eq_zero_iff, abs_of_nonneg h]
    constructor
    · intro hx
      simp only [Set.mem_Ico] at hx
      linarith [hx.2]
    · intro hx
      exact ⟨by linarith, by linarith⟩
  · have hx : x < 0 := not_le.mp h
    rw [neg_eq_zero, Int.floor_eq_zero_iff, abs_of_neg hx]
    constructor
    · intro hx'
      simp only [Set.mem_Ico] at hx'
      linarith [hx'.2]
    · intro hx'
      exact ⟨by linarith, by linarith⟩

/-- Within the range of `long long`, `llround` is the nearest integer. -/
theorem llround_cabe (x : ℚ) (h : LongLong.cabe (inteiroProximo x)) :
    llround x = inteiroProximo x := by
  simp only [llround, if_pos h]

/-- Outside the range of `long long`, `llround` is `LLONG_MIN`. -/
theorem llround_fora (x : ℚ) (h : ¬ LongLong.cabe (inteiroProximo x)) :
    llround x = -9223372036854775808 := by
  simp only [llround, if_neg h]

/-- The conversion rounds to zero exactly on the open interval `(-1/2, 1/2)`. -/
theorem llround_zero (x : ℚ) : llround x = 0 ↔ |x| < 1 / 2 := by
  rw [← inteiroProximo_zero]
  by_cases h : LongLong.cabe (inteiroProximo x)
  · rw [llround_cabe x h]
  · rw [llround_fora x h]
    constructor
    · intro h0
      exact absurd h0 (by decide)
    · intro h0
      rw [h0] at h
      exact absurd (by decide) h

/-- From `-1/2` downwards `llround` is negative, in range or not. -/
theorem llround_negativo (x : ℚ) (h : x ≤ -(1 / 2)) : llround x < 0 := by
  have hneg : inteiroProximo x < 0 := by
    have hx : ¬ (0 : ℚ) ≤ x := by linarith
    unfold inteiroProximo
    rw [if_neg hx]
    have : (1 : Int) ≤ ⌊-x + 1 / 2⌋ := Int.le_floor.mpr (by push_cast; linarith)
    omega
  by_cases hc : LongLong.cabe (inteiroProximo x)
  · rw [llround_cabe x hc]
    exact hneg
  · rw [llround_fora x hc]
    decide

/-- A value that is not positive converts to an amount that is not positive. -/
theorem MoedaBRL.conversao_nao_positiva (v : ℚ) (h : v ≤ 0) :
    llround (Double.vezes (Double.deRacional v) 100) ≤ 0 := by
  have h1 := Double.deRacional_nao_positivo v h
  have h2 : Double.vezes (Double.deRacional v) 100 ≤ 0 :=
    Double.deRacional_nao_positivo _ (mul_nonpos_of_nonpos_of_nonneg h1 (by norm_num))
  generalize Double.vezes (Double.deRacional v) 100 = p at h2
  have hi : inteiroProximo p ≤ 0 := by
    unfold inteiroProximo
    split_ifs with h0
    · have hp : p = 0 := le_antisymm h2 h0
      subst hp
      norm_num
    · have : (0 : Int) ≤ ⌊-p + 1 / 2⌋ := Int.floor_nonneg.mpr (by linarith)
      omega
  by_cases hc : LongLong.cabe (inteiroProximo p)
  · rw [llround_cabe p hc]
    exact hi
  · rw [llround_fora p hc]
    decide

/-- C15 (amended): money conversion. `paraCentavos(v)` takes `v` as a `double`, forms the
`double` product `p = v * 100.0` (the exact product of the `double` nearest `v` by 100,
rounded to binary64) and computes `r = llround(p)`. It fails with `ValorInvalido` exactly
when `r = 0`, that is when `|p| < 1/2`, so for `v = 0` and `v = 0.004`; otherwise it
returns `r` (`0.005` gives 1, `-0.005` gives -1), a negative `r` whenever `p ≤ -1/2`:
negative values are not rejected, and no `v ≤ 0` gives a positive `r`. When the integer
nearest to `p` fits `long long`, `r` is that integer, halfway cases going away from zero;
when it does not, `r` is `LLONG_MIN`. The product `p` is `v * 100` itself when `v` and
`v * 100` are binary64 numbers, and the constant `100.0` is one. -/
theorem MoedaBRL.paraCentavos_contrato (v p : ℚ)
    (hp : p = Double.vezes (Double.deRacional v) 100) :
    (MoedaBRL.paraCentavos v = .erro .ValorInvalido ↔ llround p = 0) ∧
    (llround p ≠ 0 → MoedaBRL.paraCentavos v = .ok (llround p)) ∧
    (llround p = 0 ↔ |p| < 1 / 2) ∧
    (LongLong.cabe (inteiroProximo p) →
      (∀ n : Int, |((llround p : Int) : ℚ) - p| ≤ |(n : ℚ) - p|) ∧
      (∀ n : Int, |(n : ℚ) - p| = |((llround p : Int) : ℚ) - p| → |n| ≤ |llround p|)) ∧
    (¬ LongLong.cabe (inteiroProximo p) → llround p = -9223372036854775808) ∧
    (p ≤ -(1 / 2) → ∃ r, r < 0 ∧ MoedaBRL.paraCentavos v = .ok r) ∧
    (v ≤ 0 → llround p ≤ 0) ∧
    (Double.deRacional v = v → Double.deRacional (v * 100) = v * 100 → p = v * 100) ∧
    Double.deRacional 100 = 100 ∧
    MoedaBRL.paraCentavos 0 = .erro .ValorInvalido ∧
    MoedaBRL.paraCentavos (4 / 1000) = .erro .ValorInvalido ∧
    MoedaBRL.paraCentavos (5 / 1000) = .ok 1 ∧
    MoedaBRL.paraCentavos (-5 / 1000) = .ok (-1) := by
  subst hp
  refine ⟨?_, ?_, llround_zero _, ?_, llround_fora _, ?_, MoedaBRL.conversao_nao_positiva v,
    ?_, ?_, ?_, ?_, ?_, ?_⟩
  · unfold MoedaBRL.paraCentavos
    by_cases h : llround (Double.vezes (Double.deRacional v) 100) = 0 <;> simp [h]
  · intro h
    simp [MoedaBRL.paraCentavos, h]
  · intro hc
    rw [llround_cabe _ hc]
    exact ⟨inteiroProximo_perto _, inteiroProximo_empate _⟩
  · intro hneg
    have h := llround_negativo _ hneg
    exact ⟨_, h, by simp [MoedaBRL.paraCentavos, ne_of_lt h]⟩
  · intro h1 h2
    rw [Double.vezes, h1, h2]
  · decide!
  · decide!
  · decide!
  · decide!
  · decide!

/-- Witness for C15: `-5` converts to `-500`; `0.005` gives the product `0.5`, a tie that
goes up to 1; `10` and `1000` are binary64 numbers, so the product of `10` is exact. -/
theorem MoedaBRL.paraCentavos_contrato_witness :
    MoedaBRL.paraCentavos (-5) = .ok (llround (Double.vezes (Double.deRacional (-5)) 100)) ∧
    (∃ r, r < 0 ∧ MoedaBRL.paraCentavos (-5) = .ok r) ∧
    |(0 : Int)| ≤ |llround (Double.vezes (Double.deRacional (5 / 1000)) 100)| ∧
    Double.vezes (Double.deRacional 10) 100 = 10 * 100 :=
  ⟨(MoedaBRL.paraCentavos_contrato (-5) _ rfl).2.1 (by decide!),
   (MoedaBRL.paraCentavos_contrato (-5) _ rfl).2.2.2.2.2.1 (by decide!),
   ((MoedaBRL.paraCentavos_contrato (5 / 1000) _ rfl).2.2.2.1 (by decide!)).2 0 (by decide!),
   (MoedaBRL.paraCentavos_contrato 10 _ rfl).2.2.2.2.2.2.2.1 (by decide!) (by decide!)⟩

/-- C15 as claimed (the result is `v * 100` rounded to the nearest integer, halfway cases
away from zero) fails. The decimal 1.005 has `v * 100 = 100.5`, whose nearest integer is
101, and converts to 100. The binary64 number nearest 2.675 lies below 2.675, so `v * 100`
is nearer to 267, and converts to 268, because the product rounds up to 267.5. The value
1e17 has `v * 100 = 10^19` and converts to `LLONG_MIN`. -/
theorem MoedaBRL.paraCentavos_nao_decimal :
    MoedaBRL.paraCentavos (1005 / 1000) = .ok 100 ∧
    inteiroProximo (1005 / 1000 * 100) = 101 ∧
    Double.deRacional (3011782250804019 / 1125899906842624)
      = 3011782250804019 / 1125899906842624 ∧
    MoedaBRL.paraCentavos (3011782250804019 / 1125899906842624) = .ok 268 ∧
    inteiroProximo (3011782250804019 / 1125899906842624 * 100) = 267 ∧
    MoedaBRL.paraCentavos 100000000000000000 = .ok (-9223372036854775808) ∧
    inteiroProximo (100000000000000000 * 100) = 10000000000000000000 := by
  decide!

/-! ## The service: which error a transfer reports -/

/-- A successful conversion never yields zero. -/
theorem MoedaBRL.paraCentavos_ok_ne_zero (v : ℚ) (c : Int)
    (h : MoedaBRL.paraCentavos v = .ok c) : c ≠ 0 := by
  unfold MoedaBRL.paraCentavos at h
  by_cases h0 : llround (Double.vezes (Double.deRacional v) 100) = 0
  · simp [h0] at h
  · simp only [h0, if_false] at h
    cases h
    exact h0

/-- C17: transfer error precedence. `transferir(o, d, v)` fails with `ValorInvalido` if
`o = d`; else with `ValorInvalido` if the conversion of `v` fails (rounds to zero), whether
or not `o` and `d` exist; else with `EntidadeNaoEncontrada` if `o` or `d` is missing; else
with `ValorInvalido` if the converted amount `c` is negative; else with
`SaldoInsuficiente` if `c` exceeds the balance of `o`; and it succeeds in exactly the
remaining case: `o ≠ d`, both exist and `0 < c ≤ balance(o)`. -/
theorem BancoService.transferir_precedencia (s : BancoService) (o d : String) (v : ℚ) :
    (o = d → (s.transferir o d v).1 = .erro .ValorInvalido) ∧
    (o ≠ d → llround (Double.vezes (Double.deRacional v) 100) = 0 →
      (s.transferir o d v).1 = .erro .ValorInvalido) ∧
    (∀ c, o ≠ d → MoedaBRL.paraCentavos v = .ok c →
      (s.contas_.find o = none ∨ s.contas_.find d = none) →
      (s.transferir o d v).1 = .erro .EntidadeNaoEncontrada) ∧
    (∀ c co cd, o ≠ d → MoedaBRL.paraCentavos v = .ok c →
      s.contas_.find o = some co → s.contas_.find d = some cd →
      (c < 0 → (s.transferir o d v).1 = .erro .ValorInvalido) ∧
      (0 < c → co.centavos_ < c → (s.transferir o d v).1 = .erro .SaldoInsuficiente) ∧
      (0 < c → c ≤ co.centavos_ → (s.transferir o d v).1 = .ok ())) ∧
    ((s.transferir o d v).1 = .ok () ↔
      o ≠ d ∧ ∃ c co cd, MoedaBRL.paraCentavos v = .ok c ∧
        s.contas_.find o = some co ∧ s.contas_.find d = some cd ∧
        0 < c ∧ c ≤ co.centavos_) := by
  have caso : ∀ c co cd, o ≠ d → MoedaBRL.paraCentavos v = .ok c →
      s.contas_.find o = some co → s.contas_.find d = some cd →
      (c < 0 → (s.transferir o d v).1 = .erro .ValorInvalido) ∧
      (0 < c → co.centavos_ < c → (s.transferir o d v).1 = .erro .SaldoInsuficiente) ∧
      (0 < c → c ≤ co.centavos_ → (s.transferir o d v).1 = .ok ()) := by
    intro c co cd hod hc hfo hfd
    refine ⟨fun h => ?_, fun h1 h2 => ?_, fun h1 h2 => ?_⟩
    · simp [BancoService.transferir, hod, hc, BancoService.buscar_conta, hfo, hfd,
        Conta.sacar, le_of_lt h]
    · simp [BancoService.transferir, hod, hc, BancoService.buscar_conta, hfo, hfd,
        Conta.sacar, not_le.mpr h1, h2]
    · simp [BancoService.transferir, hod, hc, BancoService.buscar_conta, hfo, hfd,
        Conta.sacar, Conta.depositar, not_le.mpr h1, not_lt.mpr h2]
  refine ⟨fun h => ?_, fun hod h0 => ?_, fun c hod hc hf => ?_, caso, ?_⟩
  · simp [BancoService.transferir, h]
  · simp [BancoService.transferir, hod, MoedaBRL.paraCentavos, h0]
  · rcases hf with hf | hf
    · simp [BancoService.transferir, hod, hc, BancoService.buscar_conta, hf]
    · cases hfo : s.contas_.find o <;>
        simp [BancoService.transferir, hod, hc, BancoService.buscar_conta, hf, hfo]
  · constructor
    · intro hok
      by_cases hod : o = d
      · simp [BancoService.transferir, hod] at hok
      · refine ⟨hod, ?_⟩
        cases hc : MoedaBRL.paraCentavos v with
        | erro e => simp [BancoService.transferir, hod, hc] at hok
        | ok c =>
          cases hfo : s.contas_.find o with
          | none => simp [BancoService.transferir, hod, hc, BancoService.buscar_conta, hfo] at hok
          | some co =>
            cases hfd : s.contas_.find d with
            | none =>
              simp [BancoService.transferir, hod, hc, BancoService.buscar_conta, hfo, hfd] at hok
            | some cd =>
              have h3 := caso c co cd hod hc hfo hfd
              have hc0 := MoedaBRL.paraCentavos_ok_ne_zero v c hc
              rcases lt_trichotomy c 0 with hneg | hz | hpos
              · rw [h3.1 hneg] at hok
                cases hok
              · exact absurd hz hc0
              · by_cases hlt : co.centavos_ < c
                · rw [h3.2.1 hpos hlt] at hok
                  cases hok
                · exact ⟨c, co, cd, rfl, rfl, rfl, hpos, not_lt.mp hlt⟩
    · rintro ⟨hod, c, co, cd, hc, hfo, hfd, hpos, hle⟩
      exact (caso c co cd hod hc hfo hfd).2.2 hpos hle

/-- Witness for C17 on the sample ledger: each branch of the precedence is taken. -/
theorem BancoService.transferir_precedencia_witness :
    (exemplo.banco.transferir "7" "7" 0).1 = .erro .ValorInvalido ∧
    (exemplo.banco.transferir "7" "8" 0).1 = .erro .ValorInvalido ∧
    (exemplo.banco.transferir "7" "1002" 3).1 = .erro .EntidadeNaoEncontrada ∧
    (exemplo.banco.transferir "1001" "1002" (-3)).1 = .erro .ValorInvalido ∧
    (exemplo.banco.transferir "1001" "1002" 9).1 = .erro .SaldoInsuficiente ∧
    (exemplo.banco.transferir "1001" "1002" 3).1 = .ok () :=
  have h3 : MoedaBRL.paraCentavos 3 = .ok 300 := by decide!
  have hm : MoedaBRL.paraCentavos (-3) = .ok (-300) := by
    decide!
  have h9 : MoedaBRL.paraCentavos 9 = .ok 900 := by decide!
  ⟨(BancoService.transferir_precedencia exemplo.banco "7" "7" 0).1 rfl,
   (BancoService.transferir_precedencia exemplo.banco "7" "8" 0).2.1 (by decide)
     (by decide!),
   (BancoService.transferir_precedencia exemplo.banco "7" "1002" 3).2.2.1 300 (by decide) h3
     (Or.inl (by decide)),
   ((BancoService.transferir_precedencia exemplo.banco "1001" "1002" (-3)).2.2.2.1 (-300)
     exemplo.conta (Conta.nova "1002" { id := 2, nome := "Bruno", cpf := "222" })
     (by decide) hm (by decide) (by decide)).1 (by decide),
   ((BancoService.transferir_precedencia exemplo.banco "1001" "1002" 9).2.2.2.1 900
     exemplo.conta (Conta.nova "1002" { id := 2, nome := "Bruno", cpf := "222" })
     (by decide) h9 (by decide) (by decide)).2.1 (by decide) (by decide),
   ((BancoService.transferir_precedencia exemplo.banco "1001" "1002" 3).2.2.2.1 300
     exemplo.conta (Conta.nova "1002" { id := 2, nome := "Bruno", cpf := "222" })
     (by decide) h3 (by decide) (by decide)).2.2 (by decide) (by decide)⟩

/-! ## Frame of the money movements -/

theorem Mapa.chaves_set {V : Type} (m : List (String × V)) (k : String) (v v' : V)
    (h : Mapa.find m k = some v) : (Mapa.set m k v').map Prod.fst = m.map Prod.fst := by
  induction m with
  | nil => simp [Mapa.find] at h
  | cons hd t ih =>
    obtain ⟨k', w⟩ := hd
    by_cases hk : k' = k
    · simp [Mapa.set, hk]
    · simp only [Mapa.find, hk, if_false] at h
      simp [Mapa.set, hk, ih h]

theorem BancoService.moldura_refl (s : BancoService) (tocadas : List String) :
    s.Moldura s tocadas :=
  ⟨rfl, rfl, rfl, fun _ _ => rfl, fun _ c h => ⟨c, h, rfl, rfl⟩⟩

theorem BancoService.moldura_trans (s s1 s2 : BancoService) (tocadas : List String)
    (h1 : s.Moldura s1 tocadas) (h2 : s1.Moldura s2 tocadas) : s.Moldura s2 tocadas := by
  obtain ⟨a1, b1, c1, d1, e1⟩ := h1
  obtain ⟨a2, b2, c2, d2, e2⟩ := h2
  refine ⟨a2.trans a1, b2.trans b1, c2.trans c1, fun k hk => (d2 k hk).trans (d1 k hk), ?_⟩
  intro k c hf
  obtain ⟨c', hf', hn, ho⟩ := e1 k c hf
  obtain ⟨c'', hf'', hn', ho'⟩ := e2 k c' hf'
  exact ⟨c'', hf'', hn'.trans hn, ho'.trans ho⟩

/-- Writing through a pointer an account with the same number and owner stays within the
frame of that key. -/
theorem BancoService.moldura_passo (s : BancoService) (tocadas : List String) (k : String)
    (c c' : Conta) (clk : Relogio) (hk : k ∈ tocadas) (hf : s.contas_.find k = some c)
    (hn : c'.numero_ = c.numero_) (ho : c'.cliente_ = c.cliente_) :
    s.Moldura { s with contas_ := s.contas_.gravar k c', clock_ := clk } tocadas := by
  refine ⟨rfl, rfl, Mapa.chaves_set _ _ _ _ hf, ?_, ?_⟩
  · intro j hj
    have hne : j ≠ k := fun e => hj (e ▸ hk)
    exact Mapa.find_set_other _ _ _ _ hne
  · intro j d hd
    by_cases hjk : j = k
    · subst hjk
      rw [hf] at hd
      cases hd
      exact ⟨c', Mapa.find_set_same _ _ _, hn, ho⟩
    · exact ⟨d, (Mapa.find_set_other _ _ _ _ hjk).trans hd, rfl, rfl⟩

theorem Conta.depositar_identidade (self : Conta) (clock_ : Relogio) (c : Int) (d : String) :
    (self.depositar clock_ c d).2.1.numero_ = self.numero_ ∧
    (self.depositar clock_ c d).2.1.cliente_ = self.cliente_ := by
  unfold Conta.depositar
  split_ifs <;> exact ⟨rfl, rfl⟩

theorem Conta.sacar_identidade (self : Conta) (clock_ : Relogio) (c : Int) (d : String) :
    (self.sacar clock_ c d).2.1.numero_ = self.numero_ ∧
    (self.sacar clock_ c d).2.1.cliente_ = self.cliente_ := by
  unfold Conta.sacar
  split_ifs <;> exact ⟨rfl, rfl⟩

theorem BancoService.depositar_moldura (s : BancoService) (n : String) (v : ℚ) :
    s.Moldura (s.depositar n v).2 [n] := by
  unfold BancoService.depositar BancoService.buscar_conta
  cases hf : s.contas_.find n with
  | none => exact BancoService.moldura_refl s _
  | some conta =>
    cases MoedaBRL.paraCentavos v with
    | erro e => exact BancoService.moldura_refl s _
    | ok c =>
      have hi := Conta.depositar_identidade conta s.clock_ c "depósito"
      exact BancoService.moldura_passo s [n] n conta _ _ (by simp) hf hi.1 hi.2

theorem BancoService.sacar_moldura (s : BancoService) (n : String) (v : ℚ) :
    s.Moldura (s.sacar n v).2 [n] := by
  unfold BancoService.sacar BancoService.buscar_conta
  cases hf : s.contas_.find n with
  | none => exact BancoService.moldura_refl s _
  | some conta =>
    cases MoedaBRL.paraCentavos v with
    | erro e => exact BancoService.moldura_refl s _
    | ok c =>
      have hi := Conta.sacar_identidade conta s.clock_ c "saque"
      exact BancoService.moldura_passo s [n] n conta _ _ (by simp) hf hi.1 hi.2

theorem BancoService.transferir_moldura (s : BancoService) (o d : String) (v : ℚ) :
    s.Moldura (s.transferir o d v).2 [o, d] := by
  unfold BancoService.transferir BancoService.buscar_conta
  split_ifs with hod
  · exact BancoService.moldura_refl s _
  · cases MoedaBRL.paraCentavos v with
    | erro e => exact BancoService.moldura_refl s _
    | ok c =>
      cases hfo : s.contas_.find o with
      | none => exact BancoService.moldura_refl s _
      | some co =>
        cases hfd : s.contas_.find d with
        | none => exact BancoService.moldura_refl s _
        | some cd =>
          simp only []
          have hi1 := Conta.sacar_identidade co s.clock_ c ("transferência para " ++ d)
          generalize co.sacar s.clock_ c ("transferência para " ++ d) = r1 at hi1 ⊢
          have m1 := BancoService.moldura_passo s [o, d] o co r1.2.1 r1.2.2 (by simp) hfo
            hi1.1 hi1.2
          cases r1.1 with
          | erro e1 => exact m1
          | ok u1 =>
            simp only []
            have hi2 := Conta.depositar_identidade cd r1.2.2 c ("transferência de " ++ o)
            generalize cd.depositar r1.2.2 c ("transferência de " ++ o) = r2 at hi2 ⊢
            have hfd1 : (s.contas_.gravar o r1.2.1).find d = some cd :=
              (Mapa.find_set_other _ _ _ _ (Ne.symm hod)).trans hfd
            have m2 := BancoService.moldura_passo
              { s with contas_ := s.contas_.gravar o r1.2.1, clock_ := r1.2.2 } [o, d] d cd
              r2.2.1 r2.2.2 (by simp) hfd1 hi2.1 hi2.2
            have m12 := BancoService.moldura_trans _ _ _ _ m1 m2
            cases r2.1 with
            | erro e2 => exact m12
            | ok u2 =>
              simp only []
              have hfo2 : ((s.contas_.gravar o r1.2.1).gravar d r2.2.1).find o = some r1.2.1 :=
                (Mapa.find_set_other _ _ _ _ hod).trans (Mapa.find_set_same _ _ _)
              have m3 := BancoService.moldura_passo
                { s with contas_ := (s.contas_.gravar o r1.2.1).gravar d r2.2.1,
                         clock_ := r2.2.2 } [o, d] o r1.2.1
                (r1.2.1.registrar ⟨r2.2.2.now.1, "TRANSFERENCIA", c, "transferência", o, d⟩)
                r2.2.2.now.2 (by simp) hfo2 rfl rfl
              have hfd3 : (((s.contas_.gravar o r1.2.1).gravar d r2.2.1).gravar o
                  (r1.2.1.registrar
                    ⟨r2.2.2.now.1, "TRANSFERENCIA", c, "transferência", o, d⟩)).find d
                  = some r2.2.1 :=
                (Mapa.find_set_other _ _ _ _ (Ne.symm hod)).trans (Mapa.find_set_same _ _ _)
              have m4 := BancoService.moldura_passo
                { s with contas_ := ((s.contas_.gravar o r1.2.1).gravar d r2.2.1).gravar o
                           (r1.2.1.registrar
                             ⟨r2.2.2.now.1, "TRANSFERENCIA", c, "transferência", o, d⟩),
                         clock_ := r2.2.2.now.2 } [o, d] d r2.2.1
                (r2.2.1.registrar ⟨r2.2.2.now.1, "TRANSFERENCIA", c, "transferência", o, d⟩)
                r2.2.2.now.2 (by simp) hfd3 rfl rfl
              exact BancoService.moldura_trans _ _ _ _ m12
                (BancoService.moldura_trans _ _ _ _ m3 m4)

/-- C19: frame of the money movements. In every state, `depositar(n, v)` and `sacar(n, v)`
leave every account other than `n` untouched (balance and history included) and
`transferir(o, d, v)` leaves every account other than `o` and `d` untouched; none of the
three changes the customer directory or its counter, adds or removes an account key,
changes the number or owner of any account, or advances the account-number counter. This
holds whether the call returns or throws. -/
theorem BancoService.movimentos_moldura (s : BancoService) (n o d : String) (v : ℚ) :
    s.Moldura (s.depositar n v).2 [n] ∧
    s.Moldura (s.sacar n v).2 [n] ∧
    s.Moldura (s.transferir o d v).2 [o, d] :=
  ⟨BancoService.depositar_moldura s n v, BancoService.sacar_moldura s n v,
   BancoService.transferir_moldura s o d v⟩

/-- Witness for C19 on the sample ledger: a deposit on "1001" leaves account "1002" as it
was, and a transfer from "1001" to "1002" leaves the customers and the counter alone. -/
theorem BancoService.movimentos_moldura_witness :
    (exemplo.banco.depositar "1001" 3).2.contas_.find "1002"
      = exemplo.banco.contas_.find "1002" ∧
    (exemplo.banco.transferir "1001" "1002" 3).2.clientes_ = exemplo.banco.clientes_ ∧
    (exemplo.banco.transferir "1001" "1002" 3).2.contas_.seq_ = exemplo.banco.contas_.seq_ :=
  ⟨(BancoService.movimentos_moldura exemplo.banco "1001" "1001" "1002" 3).1.2.2.2.1 "1002"
     (by decide),
   (BancoService.movimentos_moldura exemplo.banco "1001" "1001" "1002" 3).2.2.1,
   (BancoService.movimentos_moldura exemplo.banco "1001" "1001" "1002" 3).2.2.2.1⟩

/-! ## What a transfer writes into the two histories -/

/-- A property of accounts that holds for a fresh account and survives `depositar`,
`sacar` and the `registrar` of a transfer record with a positive amount holds for every
account of the directory after any call, provided it held before. -/
theorem BancoService.aplicar_contas (P : Conta → Prop)
    (hnova : ∀ n cli, P (Conta.nova n cli))
    (hdep : ∀ (c : Conta) clk x d, P c → P (c.depositar clk x d).2.1)
    (hsac : ∀ (c : Conta) clk x d, P c → P (c.sacar clk x d).2.1)
    (hreg : ∀ (c : Conta) (t : Transacao), P c → t.tipo = "TRANSFERENCIA" → 0 < t.centavos →
      P (c.registrar t))
    (s : BancoService) (ch : Chamada) (hs : ∀ kv ∈ s.contas_.map_, P kv.2) :
    ∀ kv ∈ (s.aplicar ch).contas_.map_, P kv.2 := by
  have hgravar : ∀ (r : ContasMem) (n : String) (c : Conta),
      (∀ kv ∈ r.map_, P kv.2) → P c → ∀ kv ∈ (r.gravar n c).map_, P kv.2 := by
    intro r n c hr hc kv hkv
    rcases Mapa.mem_set _ _ _ _ hkv with h | h
    · rw [h]
      exact hc
    · exact hr kv h
  have hfind : ∀ (n : String) (c : Conta), s.contas_.find n = some c → P c :=
    fun n c hf => hs (n, c) (Mapa.find_mem _ _ _ hf)
  cases ch with
  | criar_cliente nome cpf =>
    simp only [BancoService.aplicar, BancoService.criar_cliente]
    cases s.clientes_.getByCpf cpf <;> exact hs
  | abrir_conta cpf =>
    simp only [BancoService.aplicar, BancoService.abrir_conta]
    cases s.clientes_.getByCpf cpf with
    | none => exact hs
    | some c =>
      intro kv hkv
      rcases Mapa.mem_set _ _ _ _ hkv with h | h
      · rw [h]
        exact hnova _ _
      · exact hs kv h
  | depositar n v =>
    simp only [BancoService.aplicar, BancoService.depositar, BancoService.buscar_conta]
    cases hf : s.contas_.find n with
    | none => exact hs
    | some conta =>
      cases MoedaBRL.paraCentavos v with
      | erro e => exact hs
      | ok c => exact hgravar _ _ _ hs (hdep _ _ _ _ (hfind n conta hf))
  | sacar n v =>
    simp only [BancoService.aplicar, BancoService.sacar, BancoService.buscar_conta]
    cases hf : s.contas_.find n with
    | none => exact hs
    | some conta =>
      cases MoedaBRL.paraCentavos v with
      | erro e => exact hs
      | ok c => exact hgravar _ _ _ hs (hsac _ _ _ _ (hfind n conta hf))
  | transferir o d v =>
    simp only [BancoService.aplicar, BancoService.transferir, BancoService.buscar_conta]
    split_ifs with hod
    · exact hs
    · cases MoedaBRL.paraCentavos v with
      | erro e => exact hs
      | ok c =>
        cases hfo : s.contas_.find o with
        | none => exact hs
        | some co =>
          cases hfd : s.contas_.find d with
          | none => exact hs
          | some cd =>
            simp only []
            have hco := hsac co s.clock_ c ("transferência para " ++ d) (hfind o co hfo)
            have h1 := hgravar s.contas_ o _ hs hco
            cases hr1 : (co.sacar s.clock_ c ("transferência para " ++ d)).1 with
            | erro e1 => exact h1
            | ok u1 =>
              have hpos := (Conta.sacar_ok co s.clock_ c _ hr1).1
              have hcd := hdep cd (co.sacar s.clock_ c ("transferência para " ++ d)).2.2 c
                ("transferência de " ++ o) (hfind d cd hfd)
              have h2 := hgravar _ d _ h1 hcd
              simp only []
              cases (cd.depositar (co.sacar s.clock_ c ("transferência para " ++ d)).2.2 c
                  ("transferência de " ++ o)).1 with
              | erro e2 => exact h2
              | ok u2 =>
                refine hgravar _ d _ (hgravar _ o _ h2 ?_) ?_
                · exact hreg _ _ hco rfl hpos
                · exact hreg _ _ hcd rfl hpos
  | extrato n => exact hs

/-- The same, for every state reached from the empty ledger. -/
theorem BancoService.executar_contas (P : Conta → Prop)
    (hnova : ∀ n cli, P (Conta.nova n cli))
    (hdep : ∀ (c : Conta) clk x d, P c → P (c.depositar clk x d).2.1)
    (hsac : ∀ (c : Conta) clk x d, P c → P (c.sacar clk x d).2.1)
    (hreg : ∀ (c : Conta) (t : Transacao), P c → t.tipo = "TRANSFERENCIA" → 0 < t.centavos →
      P (c.registrar t))
    (clock : Relogio) (chamadas : List Chamada) :
    ∀ kv ∈ ((BancoService.vazio clock).executar chamadas).contas_.map_, P kv.2 := by
  have geral : ∀ (cs : List Chamada) (s : BancoService),
      (∀ kv ∈ s.contas_.map_, P kv.2) → ∀ kv ∈ (s.executar cs).contas_.map_, P kv.2 := by
    intro cs
    induction cs with
    | nil => intro s hs; exact hs
    | cons ch resto ih =>
      intro s hs
      exact ih (s.aplicar ch) (BancoService.aplicar_contas P hnova hdep hsac hreg s ch hs)
  exact geral chamadas _ (by simp [BancoService.vazio])

/-- The same, for every state reached from a ledger whose accounts have the property. -/
theorem BancoService.executar_contas_de (P : Conta → Prop)
    (hnova : ∀ n cli, P (Conta.nova n cli))
    (hdep : ∀ (c : Conta) clk x d, P c → P (c.depositar clk x d).2.1)
    (hsac : ∀ (c : Conta) clk x d, P c → P (c.sacar clk x d).2.1)
    (hreg : ∀ (c : Conta) (t : Transacao), P c → t.tipo = "TRANSFERENCIA" → 0 < t.centavos →
      P (c.registrar t))
    (chamadas : List Chamada) (s : BancoService) (hs : ∀ kv ∈ s.contas_.map_, P kv.2) :
    ∀ kv ∈ (s.executar chamadas).contas_.map_, P kv.2 := by
  induction chamadas generalizing s with
  | nil => exact hs
  | cons ch resto ih =>
    exact ih (s.aplicar ch) (BancoService.aplicar_contas P hnova hdep hsac hreg s ch hs)

/-- C14: positive transaction amounts. In every state reached from the empty ledger by
any sequence of calls, every entry of every account's history (`DEPOSITO`, `SAQUE` and
`TRANSFERENCIA` alike, the transfer records written through the unvalidated
`Conta::registrar` included) has `centavos > 0`. -/
theorem BancoService.valores_positivos (clock : Relogio) (chamadas : List Chamada) :
    ∀ kv ∈ ((BancoService.vazio clock).executar chamadas).contas_.map_,
      ∀ t ∈ kv.2.historico_, 0 < t.centavos := by
  apply BancoService.executar_contas (fun c => ∀ t ∈ c.historico_, 0 < t.centavos)
  · intro n cli t ht
    simp [Conta.nova] at ht
  · intro c clk x d hc
    unfold Conta.depositar
    split_ifs with h
    · exact hc
    · intro t ht
      simp only [List.mem_append, List.mem_singleton] at ht
      rcases ht with ht | ht
      · exact hc t ht
      · rw [ht]
        exact not_le.mp h
  · intro c clk x d hc
    unfold Conta.sacar
    split_ifs with h h'
    · exact hc
    · exact hc
    · intro t ht
      simp only [List.mem_append, List.mem_singleton] at ht
      rcases ht with ht | ht
      · exact hc t ht
      · rw [ht]
        exact not_le.mp h
  · intro c t hc _ hpos u hu
    simp only [Conta.registrar, List.mem_append, List.mem_singleton] at hu
    rcases hu with hu | hu
    · exact hc u hu
    · rw [hu]
      exact hpos

/-- Witness for C14: both entries of Ana's account after `exemplo.chamadas` are positive. -/
theorem BancoService.valores_positivos_witness :
    ("", exemplo.contaFinal) ∈
      ((BancoService.vazio exemplo.relogio).executar exemplo.chamadas).contas_.map_ ∧
    ∀ t ∈ (("", exemplo.contaFinal) : String × Conta).2.historico_, 0 < t.centavos :=
  ⟨exemplo.mem_final,
   BancoService.valores_positivos exemplo.relogio exemplo.chamadas
     ("", exemplo.contaFinal) exemplo.mem_final⟩

/-- Positive amounts are kept from any ledger whose entries are positive, such as one in
which transfers go through: the records `transferir` writes are positive as well. -/
theorem BancoService.entradas_positivas (s : BancoService) (chamadas : List Chamada)
    (hs : ∀ kv ∈ s.contas_.map_, ∀ t ∈ kv.2.historico_, 0 < t.centavos) :
    ∀ kv ∈ (s.executar chamadas).contas_.map_, ∀ t ∈ kv.2.historico_, 0 < t.centavos := by
  apply BancoService.executar_contas_de (fun c => ∀ t ∈ c.historico_, 0 < t.centavos)
  · intro n cli t ht
    simp [Conta.nova] at ht
  · intro c clk x d hc
    unfold Conta.depositar
    split_ifs with h
    · exact hc
    · intro t ht
      simp only [List.mem_append, List.mem_singleton] at ht
      rcases ht with ht | ht
      · exact hc t ht
      · rw [ht]
        exact not_le.mp h
  · intro c clk x d hc
    unfold Conta.sacar
    split_ifs with h h'
    · exact hc
    · exact hc
    · intro t ht
      simp only [List.mem_append, List.mem_singleton] at ht
      rcases ht with ht | ht
      · exact hc t ht
      · rw [ht]
        exact not_le.mp h
  · intro c t hc _ hpos u hu
    simp only [Conta.registrar, List.mem_append, List.mem_singleton] at hu
    rcases hu with hu | hu
    · exact hc u hu
    · rw [hu]
      exact hpos
  · exact hs

/-- The entries of the two accounts of `exemplo.livro` after `exemplo.movimentos`, by kind
and amount: both accounts carry the transfer record of 300. -/
theorem exemplo.movimentos_registros :
    (exemplo.livro.executar exemplo.movimentos).contas_.map_.map
      (fun kv => (kv.1, kv.2.historico_.map (fun t => (t.tipo, t.centavos)))) =
    [("1001", [("DEPOSITO", 500), ("SAQUE", 300), ("TRANSFERENCIA", 300), ("SAQUE", 100)]),
     ("1002", [("DEPOSITO", 300), ("TRANSFERENCIA", 300), ("DEPOSITO", 1000)])] := by
  decide!

theorem Conta.somaTipo_append (tipo : String) (h : List Transacao) (t : Transacao) :
    Conta.somaTipo tipo (h ++ [t]) =
      Conta.somaTipo tipo h + (if t.tipo = tipo then t.centavos else 0) := by
  unfold Conta.somaTipo
  by_cases ht : t.tipo = tipo <;> simp [List.filter_append, List.filter_cons, ht]

/-- A deposit keeps the balance explained by the history. -/
theorem Conta.depositar_explicado (c : Conta) (clk : Relogio) (x : Int) (d : String)
    (hc : c.SaldoExplicado) : (c.depositar clk x d).2.1.SaldoExplicado := by
  unfold Conta.depositar
  split_ifs with h
  · exact hc
  · show LongLong.envolver (c.centavos_ + x) = LongLong.envolver
      (Conta.somaTipo "DEPOSITO" (c.historico_ ++ [_])
        - Conta.somaTipo "SAQUE" (c.historico_ ++ [_]))
    have h1 : ("DEPOSITO" : String) ≠ "SAQUE" := by decide
    rw [Conta.somaTipo_append, Conta.somaTipo_append, hc, LongLong.envolver_soma]
    simp only [if_true, if_neg h1]
    congr 1
    ring

/-- A withdrawal keeps the balance explained by the history. -/
theorem Conta.sacar_explicado (c : Conta) (clk : Relogio) (x : Int) (d : String)
    (hc : c.SaldoExplicado) : (c.sacar clk x d).2.1.SaldoExplicado := by
  unfold Conta.sacar
  split_ifs with h h'
  · exact hc
  · exact hc
  · show c.centavos_ - x = LongLong.envolver
      (Conta.somaTipo "DEPOSITO" (c.historico_ ++ [_])
        - Conta.somaTipo "SAQUE" (c.historico_ ++ [_]))
    have h1 : ("SAQUE" : String) ≠ "DEPOSITO" := by decide
    rw [Conta.somaTipo_append, Conta.somaTipo_append]
    simp only [if_true, if_neg h1]
    have hr := LongLong.cabe_envolver
      (Conta.somaTipo "DEPOSITO" c.historico_ - Conta.somaTipo "SAQUE" c.historico_)
    have hs := LongLong.envolver_soma
      (Conta.somaTipo "DEPOSITO" c.historico_ - Conta.somaTipo "SAQUE" c.historico_) (-x)
    have hc' : c.centavos_ = LongLong.envolver
      (Conta.somaTipo "DEPOSITO" c.historico_ - Conta.somaTipo "SAQUE" c.historico_) := hc
    rw [← hc'] at hr hs
    have hcabe : LongLong.cabe (c.centavos_ + -x) := by
      obtain ⟨hr1, hr2⟩ := hr
      constructor <;> omega
    rw [LongLong.envolver_cabe _ hcabe] at hs
    have he : Conta.somaTipo "DEPOSITO" c.historico_ + 0 -
        (Conta.somaTipo "SAQUE" c.historico_ + x) =
        Conta.somaTipo "DEPOSITO" c.historico_ - Conta.somaTipo "SAQUE" c.historico_ + -x := by
      ring
    rw [he, ← hs]
    ring

/-- C18 (amended): the balance is explained by the history, in 64 bits. Start from a
ledger in which every account's balance is the 64-bit value of the sum of its `DEPOSITO`
amounts minus the sum of its `SAQUE` amounts, as in the empty ledger. After any sequence
of calls this still holds of every account, `TRANSFERENCIA` entries counting for nothing;
so the balance equals the sum of the `DEPOSITO` amounts minus the sum of the `SAQUE`
amounts whenever that difference fits `long long`. -/
theorem BancoService.saldo_pelo_historico (s : BancoService) (chamadas : List Chamada)
    (hs : ∀ kv ∈ s.contas_.map_, kv.2.SaldoExplicado) :
    ∀ kv ∈ (s.executar chamadas).contas_.map_,
      kv.2.centavos_ = LongLong.envolver
        (Conta.somaTipo "DEPOSITO" kv.2.historico_ - Conta.somaTipo "SAQUE" kv.2.historico_) ∧
      (LongLong.cabe
          (Conta.somaTipo "DEPOSITO" kv.2.historico_ - Conta.somaTipo "SAQUE" kv.2.historico_) →
        kv.2.centavos_ =
          Conta.somaTipo "DEPOSITO" kv.2.historico_ - Conta.somaTipo "SAQUE" kv.2.historico_) := by
  have h := BancoService.executar_contas_de Conta.SaldoExplicado
    (fun n cli => by
      show (0 : Int) = LongLong.envolver (0 - 0)
      decide) Conta.depositar_explicado Conta.sacar_explicado
    (fun c t hc ht _ => by
      have h1 : ("TRANSFERENCIA" : String) ≠ "DEPOSITO" := by decide
      have h2 : ("TRANSFERENCIA" : String) ≠ "SAQUE" := by decide
      show c.centavos_ = _
      simp only [Conta.registrar, Conta.somaTipo_append, ht, if_neg h1, if_neg h2, add_zero]
      exact hc)
    chamadas s hs
  intro kv hkv
  have hkv' : kv.2.centavos_ = _ := h kv hkv
  exact ⟨hkv', fun hc => by rw [hkv', LongLong.envolver_cabe _ hc]⟩

/-- Witness for C18. On the empty ledger Ana's 600 centavos are a deposit of 1000 minus a
withdrawal of 400. On a ledger with two accounts, after a transfer of 3.00, a deposit of
10.00 and a withdrawal of 1.00, the balances 100 and 1300 are 500 - 400 and 1300 - 0. -/
theorem BancoService.saldo_pelo_historico_witness :
    (("", exemplo.contaFinal) : String × Conta).2.centavos_ =
      Conta.somaTipo "DEPOSITO" (("", exemplo.contaFinal) : String × Conta).2.historico_
        - Conta.somaTipo "SAQUE" (("", exemplo.contaFinal) : String × Conta).2.historico_ ∧
    (∀ kv ∈ exemplo.livro.contas_.map_, kv.2.SaldoExplicado) ∧
    (exemplo.livro.executar exemplo.movimentos).contas_.map_.map
      (fun kv => (kv.2.centavos_, Conta.somaTipo "DEPOSITO" kv.2.historico_,
        Conta.somaTipo "SAQUE" kv.2.historico_)) = [(100, 500, 400), (1300, 1300, 0)] ∧
    (∀ kv ∈ (exemplo.livro.executar exemplo.movimentos).contas_.map_,
      kv.2.centavos_ =
        Conta.somaTipo "DEPOSITO" kv.2.historico_ - Conta.somaTipo "SAQUE" kv.2.historico_) :=
  ⟨(BancoService.saldo_pelo_historico (BancoService.vazio exemplo.relogio) exemplo.chamadas
      (by decide) ("", exemplo.contaFinal) exemplo.mem_final).2 (by decide),
   by decide!, by decide!,
   fun kv hkv =>
     (BancoService.saldo_pelo_historico exemplo.livro exemplo.movimentos (by decide!) kv hkv).2
       ((by decide! : ∀ kv ∈ (exemplo.livro.executar exemplo.movimentos).contas_.map_,
          LongLong.cabe (Conta.somaTipo "DEPOSITO" kv.2.historico_
            - Conta.somaTipo "SAQUE" kv.2.historico_)) kv hkv)⟩

/-- C18 as claimed (the balance equals the sum of the `DEPOSITO` amounts minus the sum of
the `SAQUE` amounts) fails once a credit has left the range of `long long`. After two
accepted deposits of 90000000000000000.00 on Ana's account the `DEPOSITO` amounts sum to
18000000000000000000, there is no `SAQUE`, and the balance is -446744073709551616. -/
theorem BancoService.saldo_sem_historico :
    ((BancoService.vazio exemplo.relogio).executar exemplo.depositos).contas_.map_.map
      (fun kv => (kv.2.centavos_, Conta.somaTipo "DEPOSITO" kv.2.historico_,
        Conta.somaTipo "SAQUE" kv.2.historico_))
      = [(-446744073709551616, 18000000000000000000, 0)] := by
  decide!

/-! ## Opening accounts -/

/-- In every state, `abrir_conta` for a known customer files the new account under the
empty key, the content of the moved-from `numero`, and leaves every other key as it was:
nothing is stored under the new number. -/
theorem BancoService.abrir_conta_chave (s : BancoService) (cpf : String) (cli : Cliente)
    (hcli : s.clientes_.getByCpf cpf = some cli) :
    (s.abrir_conta cpf).2.contas_.find "" = some (Conta.nova (toString s.contas_.seq_) cli) ∧
    (∀ k, k ≠ "" → (s.abrir_conta cpf).2.contas_.find k = s.contas_.find k) ∧
    (s.abrir_conta cpf).2.contas_.seq_ = s.contas_.seq_ + 1 := by
  simp only [BancoService.abrir_conta, hcli, ContasMem.nextNumero, ContasMem.add,
    ContasMem.find, movido]
  exact ⟨Mapa.find_set_same _ _ _, fun k hk => Mapa.find_set_other _ _ _ _ hk, trivial⟩

/-- Writing through a pointer keeps a one-slot directory a one-slot directory. -/
theorem ContasMem.gravar_umSlot (r : ContasMem) (n : String) (c c' : Conta)
    (hr : r.UmSlot) (hf : r.find n = some c) : (r.gravar n c').UmSlot := by
  rcases hr with h | ⟨c0, h⟩
  · simp [ContasMem.find, h, Mapa.find] at hf
  · have hn : n = "" := by
      by_contra hne
      simp [ContasMem.find, h, Mapa.find, Ne.symm hne] at hf
    exact Or.inr ⟨c', by simp [ContasMem.gravar, h, hn, Mapa.set]⟩

/-- In a one-slot directory `ContasMem::add` overwrites the slot and returns the account
it has just built. -/
theorem ContasMem.add_retorno (r : ContasMem) (numero : String) (cli : Cliente)
    (hr : r.UmSlot) :
    (r.add numero cli).1 = some (Conta.nova numero cli) ∧
    (r.add numero cli).2.map_ = [("", Conta.nova numero cli)] := by
  rcases hr with h | ⟨c0, h⟩ <;>
    simp [ContasMem.add, h, Mapa.set, movido, Mapa.rbeginKey, Mapa.find]

/-- Every call keeps a one-slot directory a one-slot directory. -/
theorem BancoService.aplicar_umSlot (s : BancoService) (ch : Chamada)
    (hs : s.contas_.UmSlot) : (s.aplicar ch).contas_.UmSlot := by
  cases ch with
  | criar_cliente nome cpf =>
    simp only [BancoService.aplicar, BancoService.criar_cliente]
    cases s.clientes_.getByCpf cpf <;> exact hs
  | abrir_conta cpf =>
    simp only [BancoService.aplicar, BancoService.abrir_conta]
    cases s.clientes_.getByCpf cpf with
    | none => exact hs
    | some c =>
      exact Or.inr ⟨_, (ContasMem.add_retorno (s.contas_.nextNumero).2 _ c hs).2⟩
  | depositar n v =>
    simp only [BancoService.aplicar, BancoService.depositar, BancoService.buscar_conta]
    cases hf : s.contas_.find n with
    | none => exact hs
    | some conta =>
      cases MoedaBRL.paraCentavos v with
      | erro e => exact hs
      | ok c => exact ContasMem.gravar_umSlot _ _ _ _ hs hf
  | sacar n v =>
    simp only [BancoService.aplicar, BancoService.sacar, BancoService.buscar_conta]
    cases hf : s.contas_.find n with
    | none => exact hs
    | some conta =>
      cases MoedaBRL.paraCentavos v with
      | erro e => exact hs
      | ok c => exact ContasMem.gravar_umSlot _ _ _ _ hs hf
  | transferir o d v =>
    simp only [BancoService.aplicar, BancoService.transferir, BancoService.buscar_conta]
    split_ifs with hod
    · exact hs
    · cases MoedaBRL.paraCentavos v with
      | erro e => exact hs
      | ok c =>
        cases hfo : s.contas_.find o with
        | none => exact hs
        | some co =>
          cases hfd : s.contas_.find d with
          | none => exact hs
          | some cd =>
            exfalso
            rcases hs with h | ⟨c0, h⟩
            · simp [ContasMem.find, h, Mapa.find] at hfo
            · have ho : o = "" := by
                by_contra hne
                simp [ContasMem.find, h, Mapa.find, Ne.symm hne] at hfo
              have hd : d = "" := by
                by_contra hne
                simp [ContasMem.find, h, Mapa.find, Ne.symm hne] at hfd
              exact hod (ho.trans hd.symm)
  | extrato n => exact hs

/-- Every directory reached from the empty ledger has at most one slot, under the empty
key: each `abrir_conta` overwrites the account opened before. -/
theorem BancoService.executar_umSlot (clock : Relogio) (chamadas : List Chamada) :
    ((BancoService.vazio clock).executar chamadas).contas_.UmSlot := by
  have geral : ∀ (cs : List Chamada) (s : BancoService),
      s.contas_.UmSlot → (s.executar cs).contas_.UmSlot := by
    intro cs
    induction cs with
    | nil => intro s hs; exact hs
    | cons ch resto ih =>
      intro s hs
      exact ih (s.aplicar ch) (BancoService.aplicar_umSlot s ch hs)
  exact geral chamadas _ (Or.inl rfl)

/-- In every state reached from the empty ledger the pointer `abrir_conta` returns is
determined: it is the account just built, with the number `nextNumero` generated. -/
theorem BancoService.abrir_conta_retorno (clock : Relogio) (chamadas : List Chamada)
    (cpf : String) (cli : Cliente)
    (hcli : ((BancoService.vazio clock).executar chamadas).clientes_.getByCpf cpf = some cli) :
    (((BancoService.vazio clock).executar chamadas).abrir_conta cpf).1 =
      .ok (some (Conta.nova
        (toString ((BancoService.vazio clock).executar chamadas).contas_.seq_) cli)) := by
  have hu := BancoService.executar_umSlot clock chamadas
  generalize (BancoService.vazio clock).executar chamadas = s at hu hcli
  simp only [BancoService.abrir_conta, hcli]
  rw [(ContasMem.add_retorno (s.contas_.nextNumero).2 _ cli hu).1]
  rfl

/-- C11 (open-account contract) fails on where the account is stored. After Ana is
created on the empty ledger, `abrir_conta("111")` builds account "1001" and files it under
the empty key: the directory holds nothing under "1001" and `buscar_conta("1001")` throws
`EntidadeNaoEncontrada`. On a ledger that holds accounts "1001" and "1002" under their
numbers, `abrir_conta("111")` advances the counter to 1004 and files the new account
"1003" under the empty key as well; nothing is stored under "1003". -/
theorem BancoService.conta_mal_guardada :
    (((BancoService.vazio exemplo.relogio).executar
        [.criar_cliente "Ana" "111"]).abrir_conta "111").2.contas_.map_
      = [("", Conta.nova "1001" exemplo.ana)] ∧
    (((BancoService.vazio exemplo.relogio).executar
        [.criar_cliente "Ana" "111"]).abrir_conta "111").2.buscar_conta "1001"
      = .erro .EntidadeNaoEncontrada ∧
    (exemplo.banco.abrir_conta "111").2.contas_.seq_ = 1004 ∧
    (exemplo.banco.abrir_conta "111").2.contas_.find "1003" = none ∧
    (exemplo.banco.abrir_conta "111").2.buscar_conta "1003" = .erro .EntidadeNaoEncontrada ∧
    (exemplo.banco.abrir_conta "111").2.contas_.find ""
      = some (Conta.nova "1003" exemplo.ana) := by
  decide!

/-! ## The key under which `ContasMem::add` files an account -/

/-- C12 (account numbers are never reassigned) fails on the second `abrir_conta`. The two
accounts Ana opens do get different numbers, "1001" and "1002", but the second is assigned
to the slot of the first: afterwards the directory holds only account "1002", and account
"1001" cannot be found, neither under its number nor under any other key. -/
theorem BancoService.conta_substituida :
    (((BancoService.vazio exemplo.relogio).executar
        [.criar_cliente "Ana" "111"]).abrir_conta "111").1
      = .ok (some (Conta.nova "1001" exemplo.ana)) ∧
    (((BancoService.vazio exemplo.relogio).executar
        [.criar_cliente "Ana" "111", .abrir_conta "111"]).abrir_conta "111").1
      = .ok (some (Conta.nova "1002" exemplo.ana)) ∧
    ((BancoService.vazio exemplo.relogio).executar
        [.criar_cliente "Ana" "111", .abrir_conta "111"]).contas_.map_
      = [("", Conta.nova "1001" exemplo.ana)] ∧
    ((BancoService.vazio exemplo.relogio).executar
        [.criar_cliente "Ana" "111", .abrir_conta "111", .abrir_conta "111"]).contas_.map_
      = [("", Conta.nova "1002" exemplo.ana)] ∧
    ((BancoService.vazio exemplo.relogio).executar
        [.criar_cliente "Ana" "111", .abrir_conta "111", .abrir_conta "111"]).buscar_conta
        "1001" = .erro .EntidadeNaoEncontrada := by
  decide!

/-! ## The demonstration sequence -/

/-- The original `criar_dados_mock` runs to the end and leaves the three balances of the
seed scenario, with the transfer record last in the statement of "1003". -/
theorem Original.Banco.criar_dados_mock_fim :
    (Original.Banco.criar_dados_mock exemplo.relogio).1 = .concluido ∧
    ((Mapa.find (Original.Banco.criar_dados_mock exemplo.relogio).2.contas_ "1001").map
      (fun c => c.centavos_)) = some 180000 ∧
    ((Mapa.find (Original.Banco.criar_dados_mock exemplo.relogio).2.contas_ "1002").map
      (fun c => c.centavos_)) = some 70000 ∧
    ((Mapa.find (Original.Banco.criar_dados_mock exemplo.relogio).2.contas_ "1003").map
      (fun c => c.centavos_)) = some 220000 ∧
    ((Mapa.find (Original.Banco.criar_dados_mock exemplo.relogio).2.contas_ "1003").bind
      (fun c => c.historico_.getLast?)) =
      some { momento := 5, tipo := "TRANSFERENCIA", centavos := 30000,
             descricao := "transferência", origem := "1003", destino := "1001" } := by
  decide!

/-- C16 (seed scenario end state) fails on the refactored service. The three
`abrir_conta` calls return the numbers "1001", "1002", "1003", but each account is filed
under the moved-from key, so the first `depositar("1001", 1500.00)` throws
`EntidadeNaoEncontrada`: the run stops there with a single account, Carla's "1003", of
balance 0, and nothing deposited. -/
theorem BancoService.criar_dados_mock_falha :
    (BancoService.criar_dados_mock (BancoService.vazio exemplo.relogio)).1
      = .excecao .EntidadeNaoEncontrada ∧
    (BancoService.criar_dados_mock (BancoService.vazio exemplo.relogio)).2.contas_.map_
      = [("", Conta.nova "1003" { id := 3, nome := "Carla", cpf := "33333333333" })] := by
  decide!

/-! ## Original and refactored side by side -/

/-- C20 (the refactoring preserves behaviour) fails on the first deposit. After
`criar_cliente("Ana","111")` and `abrir_conta("111")` both versions have returned customer
1 and account "1001", but `depositar("1001", 10.00)` succeeds on the original `Banco` and
throws `EntidadeNaoEncontrada` on the refactored `BancoService`; `extrato("1001")` then
lists the deposit on the original and throws on the refactored service. -/
theorem BancoService.refatoracao_diverge :
    ((Original.Banco.novo exemplo.relogio).criar_cliente "Ana" "111").1.id = 1 ∧
    ((BancoService.vazio exemplo.relogio).criar_cliente "Ana" "111").1.id = 1 ∧
    (((Original.Banco.novo exemplo.relogio).criar_cliente "Ana" "111").2.abrir_conta "111").1
      = .ok (Conta.nova "1001" exemplo.ana) ∧
    (((BancoService.vazio exemplo.relogio).criar_cliente "Ana" "111").2.abrir_conta "111").1
      = .ok (some (Conta.nova "1001" exemplo.ana)) ∧
    ((((Original.Banco.novo exemplo.relogio).criar_cliente "Ana" "111").2.abrir_conta
        "111").2.depositar "1001" 10).1 = .ok () ∧
    ((((BancoService.vazio exemplo.relogio).criar_cliente "Ana" "111").2.abrir_conta
        "111").2.depositar "1001" 10).1 = .erro .EntidadeNaoEncontrada ∧
    ((((Original.Banco.novo exemplo.relogio).criar_cliente "Ana" "111").2.abrir_conta
        "111").2.depositar "1001" 10).2.extrato "1001"
      = .ok [{ momento := 0, tipo := "DEPOSITO", centavos := 1000, descricao := "depósito",
               origem := "", destino := "1001" }] ∧
    ((((BancoService.vazio exemplo.relogio).criar_cliente "Ana" "111").2.abrir_conta
        "111").2.depositar "1001" 10).2.extrato "1001" = .erro .EntidadeNaoEncontrada := by
  decide!

end Banco
